import Mathlib

/-!
Shallow embedding of the torrent-title metadata parser
(`src/torrentmetaparserv3.py`, class `TorrentParser` plus the module-level
post-processing helpers).  Python regular expressions are embedded through a
small backtracking matcher (`RE` / `mrun`) whose alternation, greediness and
leftmost-match behaviour mirror CPython's `re` engine on the ASCII inputs the
parser receives; character classes use the ASCII readings of `\d`, `\w`, `\s`.
Python dicts are modelled as insertion-ordered association lists and Python
`set` iteration is determinised to first-occurrence order.
-/

/-- Characters of a Python string, in order. -/
abbrev Str := List Char

/-- ASCII `\d`. -/
def isDigitC (c : Char) : Bool := '0' ≤ c && c ≤ '9'

/-- ASCII lowercase letter. -/
def isLowerC (c : Char) : Bool := 'a' ≤ c && c ≤ 'z'

/-- ASCII uppercase letter. -/
def isUpperC (c : Char) : Bool := 'A' ≤ c && c ≤ 'Z'

/-- ASCII letter. -/
def isAlphaC (c : Char) : Bool := isLowerC c || isUpperC c

/-- ASCII alphanumeric (Python `str.isalnum` on ASCII input). -/
def isAlnumC (c : Char) : Bool := isAlphaC c || isDigitC c

/-- ASCII `\w` (alphanumeric or underscore). -/
def isWordC (c : Char) : Bool := isAlnumC c || c == '_'

/-- ASCII `\s`. -/
def isSpaceC (c : Char) : Bool :=
  c == ' ' || c == '\t' || c == '\n' || c == '\r' || c == '\x0b' || c == '\x0c'

/-- ASCII lower-casing of one character (Python `str.lower` on ASCII). -/
def lowC (c : Char) : Char := if isUpperC c then Char.ofNat (c.toNat + 32) else c

/-- Lower-case a character list. -/
def lowS (s : Str) : Str := s.map lowC

/-- Character at an index, if any. -/
def nth (s : Str) (i : Nat) : Option Char := s.get? i

/-- Python substring membership `needle in hay`. -/
def containsSub (hay needle : Str) : Bool :=
  match hay with
  | [] => needle.isEmpty
  | _ :: t => needle.isPrefixOf hay || containsSub t needle

/-- Python `str.replace(old, new)` (all occurrences, left to right);
`fuel` only bounds recursion and is instantiated with the string length. -/
def replAllF (fuel : Nat) (s old new : Str) : Str :=
  match fuel with
  | 0 => s
  | fuel + 1 =>
    match s with
    | [] => []
    | c :: t =>
      if old ≠ [] && old.isPrefixOf s then
        new ++ replAllF fuel (s.drop old.length) old new
      else
        c :: replAllF fuel t old new

/-- Python `str.replace(old, new)`. -/
def replAll (s old new : Str) : Str := replAllF s.length s old new

/-- Python `str.strip()` (strip ASCII whitespace from both ends). -/
def stripWS (s : Str) : Str :=
  ((s.dropWhile isSpaceC).reverse.dropWhile isSpaceC).reverse

/-- Python `str.endswith(suffix)`. -/
def endsWithS (s suffix : Str) : Bool := suffix.isSuffixOf s

/-- Python `str.startswith(p)`. -/
def startsWithS (s p : Str) : Bool := p.isPrefixOf s

/-- Python `str.split(sep)` for a single-character separator. -/
def splitOnC (sep : Char) (s : Str) : List Str :=
  match s with
  | [] => [[]]
  | c :: t =>
    let r := splitOnC sep t
    if c == sep then [] :: r
    else
      match r with
      | [] => [[c]]
      | h :: t2 => (c :: h) :: t2

/-- Join a list of strings with a separator (Python `sep.join(xs)`). -/
def joinSep (sep : Str) (xs : List Str) : Str :=
  match xs with
  | [] => []
  | [x] => x
  | x :: t => x ++ sep ++ joinSep sep t

/-- Python `str.isdigit()` on ASCII: nonempty and all digits. -/
def isDigitsS (s : Str) : Bool := !s.isEmpty && s.all isDigitC

/-- Value of a digit character. -/
def digVal (c : Char) : Nat := c.toNat - '0'.toNat

/-- Python `int(s)` for a string of ASCII digits. -/
def toNatS (s : Str) : Nat := s.foldl (fun a c => a * 10 + digVal c) 0

/-- Decimal rendering of a natural number (Python `str(n)`). -/
def natToS (n : Nat) : Str := (toString n).data

/-- Python `str.zfill(k)`. -/
def zfill (k : Nat) (s : Str) : Str :=
  List.replicate (k - s.length) '0' ++ s

/-- Python `f"S{n:02d}"`-style zero-padded rendering of a number. -/
def pad2 (n : Nat) : Str := zfill 2 (natToS n)

/-- First-occurrence deduplication; determinises Python `set` iteration
(CPython's hash order is abstracted to insertion order). -/
def dedupFirst (xs : List Str) : List Str :=
  match xs with
  | [] => []
  | x :: t => x :: (dedupFirst t).filter (fun y => y ≠ x)

/-- Count of occurrences of `x` (Python `Counter(values)[x]`). -/
def countOcc (xs : List Str) (x : Str) : Nat := (xs.filter (fun y => y == x)).length

/-! ## The regular-expression engine

A direct backtracking interpreter with Python `re` semantics: ordered
alternation, greedy/lazy quantifiers, capturing groups keeping the last
captured span, zero-width assertions, and leftmost-first matching. -/

/-- Regular expressions as matched by CPython `re` (the fragment the parser
uses).  Lookbehinds in the source are all of width one, so a dedicated
single-character constructor suffices. -/
inductive RE : Type where
  | eps : RE
  | cls (p : Char → Bool) : RE
  | cat (a b : RE) : RE
  | alt (a b : RE) : RE
  | star (lazy : Bool) (a : RE) : RE
  | grp (n : Nat) (a : RE) : RE
  | la (neg : Bool) (a : RE) : RE
  | lb1 (neg : Bool) (p : Char → Bool) : RE
  | wb : RE
  | bos : RE
  | eos : RE

/-- Captured group spans, most recent first: `(group, start, stop)`. -/
abbrev Caps := List (Nat × Nat × Nat)

/-- Look up the span last captured by group `n`. -/
def getCap (n : Nat) (caps : Caps) : Option (Nat × Nat) :=
  match caps with
  | [] => none
  | (m, s, e) :: t => if m == n then some (s, e) else getCap n t

/-- The backtracking matcher.  `k` is the success continuation; alternatives
are tried in order with full backtracking, which reproduces CPython's
preference order.  `fuel` bounds recursion depth and is instantiated
generously relative to pattern and subject size. -/
def mrun (s : Str) (slen : Nat) :
    Nat → RE → Nat → Caps → (Nat → Caps → Option (Nat × Caps)) → Option (Nat × Caps)
  | 0, _, _, _, _ => none
  | fuel + 1, re, i, caps, k =>
    match re with
    | .eps => k i caps
    | .cls p =>
      match nth s i with
      | some c => if p c then k (i + 1) caps else none
      | none => none
    | .cat a b => mrun s slen fuel a i caps (fun j cs => mrun s slen fuel b j cs k)
    | .alt a b =>
      match mrun s slen fuel a i caps k with
      | some r => some r
      | none => mrun s slen fuel b i caps k
    | .star lazy a =>
      let more := fun j cs =>
        if j == i then none else mrun s slen fuel (.star lazy a) j cs k
      if lazy then
        match k i caps with
        | some r => some r
        | none => mrun s slen fuel a i caps more
      else
        match mrun s slen fuel a i caps more with
        | some r => some r
        | none => k i caps
    | .grp n a => mrun s slen fuel a i caps (fun j cs => k j ((n, i, j) :: cs))
    | .la neg a =>
      let r := mrun s slen fuel a i caps (fun j cs => some (j, cs))
      if r.isSome != neg then k i caps else none
    | .lb1 neg p =>
      let ok :=
        match i with
        | 0 => false
        | j + 1 =>
          match nth s j with
          | some c => p c
          | none => false
      if ok != neg then k i caps else none
    | .wb =>
      let wl :=
        match i with
        | 0 => false
        | j + 1 =>
          match nth s j with
          | some c => isWordC c
          | none => false
      let wr :=
        match nth s i with
        | some c => isWordC c
        | none => false
      if wl != wr then k i caps else none
    | .bos => if i == 0 then k i caps else none
    | .eos => if i == slen then k i caps else none

/-- Structural size of a pattern, used to compute a recursion-depth bound. -/
def RE.size : RE → Nat
  | .eps => 1
  | .cls _ => 1
  | .cat a b => a.size + b.size + 1
  | .alt a b => a.size + b.size + 1
  | .star _ a => a.size + 1
  | .grp _ a => a.size + 1
  | .la _ a => a.size + 1
  | .lb1 _ _ => 1
  | .wb => 1
  | .bos => 1
  | .eos => 1

/-- Fuel sufficient for the recursion depth of `mrun` on subject `s`. -/
def fuelFor (re : RE) (s : Str) : Nat := (re.size + 4) * (s.length + 4) * 4

/-- One regex match: overall span plus captured group spans. -/
structure RMatch where
  mstart : Nat
  mstop : Nat
  caps : Caps
  deriving Repr, DecidableEq

/-- Try to match `re` anchored at position `i` (CPython attempts positions
left to right; within one position, backtracking order decides). -/
def tryAt (re : RE) (s : Str) (i : Nat) : Option RMatch :=
  match mrun s s.length (fuelFor re s) re i [] (fun j cs => some (j, cs)) with
  | some (j, cs) => some ⟨i, j, cs⟩
  | none => none

/-- All non-overlapping matches from position `i` on (Python `finditer`);
`fuel` bounds iteration and is instantiated with `slen + 1 `. -/
def finditerFrom (re : RE) (s : Str) : Nat → Nat → List RMatch
  | 0, _ => []
  | fuel + 1, i =>
    if i > s.length then []
    else
      match tryAt re s i with
      | some m =>
        m :: finditerFrom re s fuel (if m.mstop > i then m.mstop else i + 1)
      | none => finditerFrom re s fuel (i + 1)

/-- Python `re.finditer`. -/
def finditer (re : RE) (s : Str) : List RMatch :=
  finditerFrom re s (s.length + 1) 0

/-- Python `re.search`. -/
def rsearch (re : RE) (s : Str) : Option RMatch := (finditer re s).head?

/-- Python `re.match` (anchored at the start only). -/
def rmatch0 (re : RE) (s : Str) : Option RMatch := tryAt re s 0

/-- Text of the overall match (`match.group(0)`). -/
def mtext (s : Str) (m : RMatch) : Str := (s.take m.mstop).drop m.mstart

/-- Text of capture group `n` (`match.group(n)`), `none` if unset. -/
def mgrp (s : Str) (m : RMatch) (n : Nat) : Option Str :=
  match getCap n m.caps with
  | some (a, b) => some ((s.take b).drop a)
  | none => none

/-- `match.group(n)` when the pattern guarantees the group is set. -/
def mgrpD (s : Str) (m : RMatch) (n : Nat) : Str := (mgrp s m n).getD []

/-- Start of capture group `n` (`match.start(n)`), `0` if unset. -/
def mgrpStart (m : RMatch) (n : Nat) : Nat :=
  match getCap n m.caps with
  | some (a, _) => a
  | none => 0

/-- Python `re.sub(pattern, repl, s)` for a replacement string without
backreferences (the source's replacement templates use `$`-style references,
which CPython's `re.sub` treats as literal text). -/
def rsub (re : RE) (repl : Str) (s : Str) : Str :=
  let ms := finditer re s
  let rec go (i : Nat) (ms : List RMatch) : Str :=
    match ms with
    | [] => s.drop i
    | m :: t =>
      ((s.take m.mstart).drop i) ++ repl ++ go m.mstop t
  go 0 ms

/-- `re.search` as a Boolean test. -/
def rtest (re : RE) (s : Str) : Bool := (rsearch re s).isSome

/-! ### Pattern-building helpers (all source patterns are `re.IGNORECASE`) -/

/-- Case-insensitive literal character. -/
def chI (c : Char) : RE := .cls (fun x => lowC x == lowC c)

/-- Case-sensitive literal character. -/
def chE (c : Char) : RE := .cls (fun x => x == c)

/-- Sequence of regexes. -/
def rSeq (xs : List RE) : RE := xs.foldr .cat .eps

/-- Case-insensitive literal string. -/
def rS (s : String) : RE := rSeq (s.data.map chI)

/-- Ordered alternation of a list of regexes. -/
def rOr (xs : List RE) : RE :=
  match xs with
  | [] => .eps
  | [x] => x
  | x :: t => .alt x (rOr t)

/-- Ordered alternation of case-insensitive literal strings. -/
def rOrS (xs : List String) : RE := rOr (xs.map rS)

/-- `\d`. -/
def rD : RE := .cls isDigitC

/-- `\w`. -/
def rW : RE := .cls isWordC

/-- `\s`. -/
def rWS : RE := .cls isSpaceC

/-- `.` (any character but newline). -/
def rDot : RE := .cls (fun c => !(c == '\n'))

/-- Character class containing exactly the characters of `s`
(case-sensitive; used for classes of punctuation). -/
def rCls (s : String) : RE := .cls (fun c => s.data.contains c)

/-- Negated character class. -/
def rClsN (s : String) : RE := .cls (fun c => !s.data.contains c)

/-- Greedy `?`. -/
def rOpt (a : RE) : RE := .alt a .eps

/-- Greedy `*`. -/
def rStar (a : RE) : RE := .star false a

/-- Greedy `+`. -/
def rPlus (a : RE) : RE := .cat a (rStar a)

/-- Lazy `+?`. -/
def rPlusL (a : RE) : RE := .cat a (.star true a)

/-- Exactly `n` repetitions (`{n}`). -/
def rRep (a : RE) (n : Nat) : RE := rSeq (List.replicate n a)

/-- Greedy `{n,m}`. -/
def rRepR (a : RE) (n m : Nat) : RE :=
  let rec opts (k : Nat) : RE :=
    match k with
    | 0 => .eps
    | k + 1 => rOpt (.cat a (opts k))
  .cat (rRep a n) (opts (m - n))

/-- Greedy `{n,}`. -/
def rRepMin (a : RE) (n : Nat) : RE := .cat (rRep a n) (rStar a)

/-- `\b literal \b`. -/
def rWord (s : String) : RE := rSeq [.wb, rS s, .wb]

/-- `\d{n}`. -/
def rDn (n : Nat) : RE := rRep rD n

/-- `\d+`. -/
def rDp : RE := rPlus rD

/-! ## Title validity (`TorrentParser._is_valid_title`)

The sixteen `reject_hashed_regexes` are simple anchored patterns and are
translated directly to character-level predicates (`re.match` anchors at the
start of the string; `$` additionally requires the end). -/

/-- `'password' in title.lower() and 'yenc' in title.lower()`. -/
def pwYenc (t : Str) : Bool :=
  containsSub (lowS t) "password".data && containsSub (lowS t) "yenc".data

/-- `any(c.isalnum() for c in title)` (ASCII reading). -/
def hasAlnum (t : Str) : Bool := t.any isAlnumC

/-- `^[0-9a-zA-Z]{32}` (prefix match). -/
def rej01 (s : Str) : Bool := s.length ≥ 32 && (s.take 32).all isAlnumC

/-- `^[a-z0-9]{24}$` with IGNORECASE. -/
def rej02 (s : Str) : Bool := s.length == 24 && s.all isAlnumC

/-- `^[A-Z]{11}\d{3}$` with IGNORECASE. -/
def rej03 (s : Str) : Bool :=
  s.length == 14 && (s.take 11).all isAlphaC && (s.drop 11).all isDigitC

/-- `^[a-z]{12}\d{3}$` with IGNORECASE. -/
def rej04 (s : Str) : Bool :=
  s.length == 15 && (s.take 12).all isAlphaC && (s.drop 12).all isDigitC

/-- `^Backup_\d{5,}S\d{2}-\d{2}$` with IGNORECASE (the digit run and the
following `S` draw from disjoint character sets, so maximal munch agrees
with the backtracking semantics). -/
def rej05 (s : Str) : Bool :=
  startsWithS (lowS s) "backup_".data &&
  (let rest := s.drop 7
   let digs := rest.takeWhile isDigitC
   let aft := rest.drop digs.length
   digs.length ≥ 5 && aft.length == 6 &&
   (lowS aft).take 1 == ['s'] && ((aft.drop 1).take 2).all isDigitC &&
   (aft.drop 3).take 1 == ['-'] && (aft.drop 4).all isDigitC)

/-- `^123$`. -/
def rej06 (s : Str) : Bool := s == "123".data

/-- `^abc$` with IGNORECASE. -/
def rej07 (s : Str) : Bool := lowS s == "abc".data

/-- `^abc[-_. ]xyz` with IGNORECASE (prefix match). -/
def rej08 (s : Str) : Bool :=
  startsWithS (lowS s) "abc".data &&
  (match nth s 3 with
   | some c => "-_. ".data.contains c
   | none => false) &&
  startsWithS ((lowS s).drop 4) "xyz".data

/-- `^b00bs$` with IGNORECASE. -/
def rej09 (s : Str) : Bool := lowS s == "b00bs".data

/-- `^\d{6}_\d{2}$`. -/
def rej10 (s : Str) : Bool :=
  s.length == 9 && (s.take 6).all isDigitC && (s.drop 6).take 1 == ['_'] &&
  (s.drop 7).all isDigitC

/-- `^[0-9a-zA-Z]{30}` (prefix match). -/
def rej11 (s : Str) : Bool := s.length ≥ 30 && (s.take 30).all isAlnumC

/-- `^[0-9a-zA-Z]{26}` (prefix match). -/
def rej12 (s : Str) : Bool := s.length ≥ 26 && (s.take 26).all isAlnumC

/-- `^[0-9a-zA-Z]{39}` (prefix match). -/
def rej13 (s : Str) : Bool := s.length ≥ 39 && (s.take 39).all isAlnumC

/-- `^[0-9a-zA-Z]{24}` (prefix match). -/
def rej14 (s : Str) : Bool := s.length ≥ 24 && (s.take 24).all isAlnumC

/-- `^Season[ ._-]*\d+$` with IGNORECASE. -/
def rej15 (s : Str) : Bool :=
  startsWithS (lowS s) "season".data &&
  (let rest := s.drop 6
   let seps := rest.takeWhile (fun c => " ._-".data.contains c)
   let aft := rest.drop seps.length
   !aft.isEmpty && aft.all isDigitC)

/-- `^Specials$` with IGNORECASE. -/
def rej16 (s : Str) : Bool := lowS s == "specials".data

/-- The `reject_hashed_regexes` list, in source order. -/
def rejectHashedList : List (Str → Bool) :=
  [rej01, rej02, rej03, rej04, rej05, rej06, rej07, rej08, rej09, rej10,
   rej11, rej12, rej13, rej14, rej15, rej16]

/-- Does `\.[a-z0-9]{2,4}$` (IGNORECASE) match at position `p`?  The
pattern must reach the end of the string, so it matches at `p` exactly when
`s[p]` is a dot and the rest is 2 to 4 alphanumerics. -/
def extMatchAt (s : Str) (p : Nat) : Bool :=
  nth s p == some '.' &&
  2 ≤ s.length - p - 1 && s.length - p - 1 ≤ 4 &&
  (s.drop (p + 1)).all isAlnumC

/-- Leftmost match position of the extension pattern, if any. -/
def extPos (s : Str) : Option Nat := (List.range s.length).find? (extMatchAt s)

/-- `re.sub(r'\.[a-z0-9]{2,4}$', '', title)` — title with a trailing file
extension removed. -/
def titleWithoutExt (t : Str) : Str :=
  match extPos t with
  | some p => t.take p
  | none => t

/-- `TorrentParser._is_valid_title`. -/
def isValidTitle (t : Str) : Bool :=
  if pwYenc t then false
  else if !hasAlnum t then false
  else !(rejectHashedList.any (fun f => f (titleWithoutExt t)))

/-- A title that matches one of the hashed/garbage-release signatures
(the password/yEnc check or any of the sixteen reject patterns, applied
after extension stripping). -/
def hashedReleaseSignature (t : Str) : Bool :=
  pwYenc t || rejectHashedList.any (fun f => f (titleWithoutExt t))

/-! ## Pre-substitution rewrites (`_compile_pre_substitution_regexes`)

CPython's `re.sub` gives `$` no special meaning in the replacement string, so
the C#-style `$1` / `${name}` templates in the source are inserted as literal
text; the embedding reproduces this with literal replacements. -/

/-- CJK unified ideograph range `[一-鿌]`. -/
def isCJK (c : Char) : Bool := 0x4E00 ≤ c.toNat && c.toNat ≤ 0x9FCC

/-- `\.E(\d{2,4})\.\d{6}\.(.*-NEXT)$`. -/
def preSub1 : RE :=
  rSeq [chE '.', chI 'E', .grp 1 (rRepR rD 2 4), chE '.', rDn 6, chE '.',
        .grp 2 (rSeq [rStar rDot, rS "-NEXT"]), .eos]

/-- `^\[(?:(?P<subgroup>[^\]]+?)(?:[一-鿌]+)?)\]\[(?P<title>[^\]]+?)(?:\s(?P<chinesetitle>[一-鿌][^\]]*?))\]\[(?:(?:[一-鿌]+?)?(?P<episode>\d{1,4})(?:[一-鿌]+?)?)\]`. -/
def preSub2 : RE :=
  rSeq [.bos, chE '[',
        .grp 1 (rPlusL (rClsN "]")), rOpt (rPlus (.cls isCJK)),
        chE ']', chE '[',
        .grp 2 (rPlusL (rClsN "]")),
        rWS, .grp 3 (rSeq [.cls isCJK, .star true (rClsN "]")]),
        chE ']', chE '[',
        rOpt (rPlusL (.cls isCJK)), .grp 4 (rRepR rD 1 4), rOpt (rPlusL (.cls isCJK)),
        chE ']']

/-- `^\[(?P<subgroup>[^\]]*?(?:LoliHouse|ZERO|Lilith-Raws|Skymoon-Raws|orion origin)[^\]]*?)\](?P<title>[^\[\]]+?)(?: - (?P<episode_num>[0-9-]+)\s*|\[第?(?P<episode>[0-9]+(?:-[0-9]+)?)话?(?:END|完)?\])\[`. -/
def preSub3 : RE :=
  rSeq [.bos, chE '[',
        .grp 1 (rSeq [.star true (rClsN "]"),
                      rOrS ["LoliHouse", "ZERO", "Lilith-Raws", "Skymoon-Raws", "orion origin"],
                      .star true (rClsN "]")]),
        chE ']',
        .grp 2 (rPlusL (rClsN "[]")),
        .alt (rSeq [rS " - ", .grp 3 (rPlus (rCls "0123456789-")), rStar rWS])
             (rSeq [chE '[', rOpt (chE '第'),
                    .grp 4 (rSeq [rPlus rD, rOpt (rSeq [chE '-', rPlus rD])]),
                    rOpt (chE '话'), rOpt (.alt (rS "END") (chE '完')), chE ']']),
        chE '[']

/-- `^\[(?P<subgroup>[^\]]+)\](?:(?P<chinesubgroup>\[(?=[^\]]*?[一-鿌])[^\]]*\])+)\[(?P<title>[^\]]+?)\](?P<junk>\[[^\]]+\])*\[(?P<episode>[0-9]+(?:-[0-9]+)?)( END| Fin)?\]`. -/
def preSub4 : RE :=
  rSeq [.bos, chE '[', .grp 1 (rPlus (rClsN "]")), chE ']',
        rPlus (.grp 2 (rSeq [chE '[',
                             .la false (rSeq [.star true (rClsN "]"), .cls isCJK]),
                             rStar (rClsN "]"), chE ']'])),
        chE '[', .grp 3 (rPlusL (rClsN "]")), chE ']',
        rStar (.grp 4 (rSeq [chE '[', rPlus (rClsN "]"), chE ']'])),
        chE '[', .grp 5 (rSeq [rPlus rD, rOpt (rSeq [chE '-', rPlus rD])]),
        rOpt (.grp 6 (.alt (rS " END") (rS " Fin"))),
        chE ']']

/-- `^(?P<title>.+?(?=[ ._-]\()).+?\((?P<year>\d{4})\/(?P<info>S[^\/]+)`. -/
def preSub5 : RE :=
  rSeq [.bos,
        .grp 1 (rSeq [rPlusL rDot, .la false (rSeq [rCls " ._-", chE '('])]),
        rPlusL rDot, chE '(', .grp 2 (rDn 4), chE '/',
        .grp 3 (rSeq [chI 'S', rPlus (rClsN "/")])]

/-- The five pre-substitution rules with their (literal) replacements. -/
def preSubs : List (RE × Str) :=
  [(preSub1, ".S01E$1.$2".data),
   (preSub2, "[${subgroup}] ${title} - ${episode} - ".data),
   (preSub3, "[${subgroup}][${title}][${episode}][".data),
   (preSub4, "[${subgroup}] ${title} - ${episode} ".data),
   (preSub5, "${title} (${year}) - ${info} ".data)]

/-- `TorrentParser._pre_process_title`. -/
def preProcessTitle (t : Str) : Str :=
  preSubs.foldl (fun s p => rsub p.1 p.2 s) t

/-! ## Normalization (`TorrentParser._normalize_title`) -/

/-- `[GMK]` with IGNORECASE. -/
def isGMK (c : Char) : Bool := "GMKgmk".data.contains c

/-- The ordered `preserved_patterns` list (43 patterns). -/
def preservedPatterns : List RE :=
  [ rSeq [rDp, rOpt (chE '.'), rStar rD, .cls isGMK, chI 'B'],
    rSeq [rDp, chE '.', rDp],
    rSeq [rS "WEB", rCls "-.", rS "DL"],
    rSeq [rS "HD", rCls "-.", rS "Rip"],
    rSeq [rS "BD", rCls "-.", rS "Rip"],
    rSeq [rS "DVD", rCls "-.", rS "Rip"],
    rSeq [rS "WEB", rCls "-.", rS "Rip"],
    rS "HDTV",
    rS "BluRay",
    rSeq [rS "Blu", rCls "-.", rS "Ray"],
    rS "Telecine",
    rS "TS",
    rS "TC",
    rSeq [rS "DDP", rDp, rOpt (chE '.'), rStar rD],
    rSeq [rS "AAC", rStar rD, rOpt (chE '.'), rStar rD],
    rSeq [rS "AC", rDp, rOpt (chE '.'), rStar rD],
    rSeq [rS "DD", rStar rD, rOpt (chE '.'), rStar rD],
    rSeq [rS "EAC", rStar rD],
    rS "DTS",
    rS "TrueHD",
    rS "Atmos",
    rSeq [rS "MP", rDp],
    rS "HEVC",
    rS "AVC",
    rS "AV1",
    rS "XviD",
    rS "DivX",
    rSeq [chI 'x', rDp],
    rSeq [chI 'H', rDp],
    rSeq [chI 'H', chE '.', rDp],
    rSeq [rDp, chI 'p'],
    rSeq [rDp, chI 'i'],
    rSeq [rDp, chI 'x', rDp],
    rSeq [chE '[', rPlus (rClsN "]"), chE ']'],
    rSeq [chE '(', rStar rWS, .alt (rS "19") (rS "20"), rDn 2, rStar rWS, chE ')'],
    rSeq [chI 'S', rDp, chI 'E', rDp],
    rSeq [chI 'S', rDp],
    rSeq [rS "Season", rPlus rWS, rDp],
    rSeq [.wb, .alt (rS "19") (rS "20"), rDn 2, .wb],
    rSeq [.wb, .alt (rS "19") (rS "20"), rDn 2, chE '-', .alt (rS "19") (rS "20"), rDn 2, .wb],
    rSeq [.wb, rOrS ["special", "ova", "ovd", "oav", "bonus", "extra"], .wb],
    rSeq [.wb, rOrS ["part", "pt"], rStar rWS, rDp, .wb],
    rSeq [.wb, rOrS ["multi", "dual"], .wb] ]

/-- `f'__PRESERVED_{i}_{k}__'`. -/
def placeholderStr (i k : Nat) : Str :=
  "__PRESERVED_".data ++ natToS i ++ "_".data ++ natToS k ++ "__".data

/-- The preservation loop: for each pattern in order, find the matches in the
current string, then replace every occurrence of each matched text with a
fresh placeholder (Python `str.replace` replaces all occurrences; the match
iterator is bound to the string the pattern was scanned on). -/
def normPreserve : List RE → Nat → Str → List (Str × Str) → Str × List (Str × Str)
  | [], _, cur, pm => (cur, pm)
  | re :: rest, i, cur, pm =>
    let ms := finditer re cur
    let st := ms.foldl
      (fun (st : Str × List (Str × Str)) m =>
        let txt := mtext cur m
        let ph := placeholderStr i st.2.length
        (replAll st.1 txt ph, st.2 ++ [(ph, txt)]))
      (cur, pm)
    normPreserve rest (i + 1) st.1 st.2

/-- `re.sub(r'[^\w\s-]', ' ', s)`. -/
def punctToSpace (s : Str) : Str :=
  s.map (fun c => if isWordC c || isSpaceC c || c == '-' then c else ' ')

/-- `re.sub(r'\s+', ' ', s)` — collapse whitespace runs to single spaces. -/
def squeezeWS : Str → Str
  | [] => []
  | [c] => [if isSpaceC c then ' ' else c]
  | c :: d :: t =>
    if isSpaceC c && isSpaceC d then squeezeWS (d :: t)
    else (if isSpaceC c then ' ' else c) :: squeezeWS (d :: t)

/-- Unify dash and bracket glyphs (`–`→`-`, `【`→`[`, `】`→`]`). -/
def unifyGlyphs (s : Str) : Str :=
  s.map (fun c => if c == '–' then '-' else if c == '【' then '[' else if c == '】' then ']' else c)

/-- `TorrentParser._normalize_title`. -/
def normalizeTitle (t : Str) : Str :=
  if !isValidTitle t then t
  else
    let s := unifyGlyphs (preProcessTitle t)
    let st := normPreserve preservedPatterns 0 s []
    let s2 := stripWS (squeezeWS (punctToSpace st.1))
    st.2.foldl (fun cur p => replAll cur p.1 p.2) s2

/-! ## Season patterns (`_compile_season_patterns`)

Each entry is `(label, pattern, number of capture groups in the pattern)`;
the group count models Python's `len(match.groups())`, which counts the
groups of the pattern, not the groups that matched. -/

/-- `[a-z0-9\-]` with IGNORECASE. -/
def isAlnumDash (c : Char) : Bool := isAlphaC c || isDigitC c || c == '-'

/-- `[IVXLCDM]` with IGNORECASE. -/
def isRomanC (c : Char) : Bool := "IVXLCDMivxlcdm".data.contains c

/-- `(?:\d+\s*[, &]\s*)+\d+` — a comma/ampersand separated number list. -/
def numListRe : RE :=
  rSeq [rPlus (rSeq [rDp, rStar rWS, rCls ", &", rStar rWS]), rDp]

/-- `(?:S(?:eason)?\s*\d+\s*[\.\-_,+ ]?\s*){2,}` — a run of `S<n>` items. -/
def sssRunRe : RE :=
  rRepMin (rSeq [chI 'S', rOpt (rS "eason"), rStar rWS, rDp, rStar rWS,
                 rOpt (rCls ".-_,+ "), rStar rWS]) 2

/-- The season pattern registry, in source order. -/
def seasonPatterns : List (String × RE × Nat) :=
  [ ("Complete Season", rSeq [rS "complete", rPlus rWS, rS "season"], 0),
    ("Complete Seasons", rSeq [rS "complete", rPlus rWS, rS "seasons"], 0),
    ("Full Season", rSeq [rS "full", rPlus rWS, rS "season"], 0),
    ("Season Pack", rSeq [rS "season", rPlus rWS, rS "pack"], 0),
    ("All Seasons", rSeq [rS "all", rPlus rWS, rS "seasons"], 0),
    ("All Season", rSeq [rS "all", rPlus rWS, rS "season"], 0),
    ("Season #", rSeq [rS "season", rPlus (rCls "-_. "), .grp 1 rDp], 1),
    ("Season ##", rSeq [rS "season", rPlus (rCls "-_. "), .grp 1 (rDn 2)], 1),
    ("Season #-#", rSeq [rS "season", rPlus (rCls "-_. "), .grp 1 rDp, chE '-', .grp 2 rDp], 2),
    ("Season ##-##", rSeq [rS "season", rPlus (rCls "-_. "), .grp 1 (rDn 2), chE '-', .grp 2 (rDn 2)], 2),
    ("Season #-Season #", rSeq [rS "season", rPlus (rCls "-_. "), .grp 1 rDp, rStar rWS, chE '-', rStar rWS, rS "season", rPlus (rCls "-_. "), .grp 2 rDp], 2),
    ("Season ##-Season ##", rSeq [rS "season", rPlus (rCls "-_. "), .grp 1 (rDn 2), rStar rWS, chE '-', rStar rWS, rS "season", rPlus (rCls "-_. "), .grp 2 (rDn 2)], 2),
    ("S#", rSeq [.lb1 true isWordC, chI 'S', .grp 1 rD, .la true rD], 1),
    ("S##", rSeq [.lb1 true isWordC, chI 'S', .grp 1 (rDn 2), .la true rD], 1),
    ("S#-#", rSeq [.lb1 true isWordC, chI 'S', .grp 1 rD, chE '-', .grp 2 rD, .la true rD], 2),
    ("S##-##", rSeq [.lb1 true isWordC, chI 'S', .grp 1 (rDn 2), chE '-', .grp 2 (rDn 2), .la true rD], 2),
    ("S#-S#", rSeq [.lb1 true isWordC, chI 'S', .grp 1 rD, rStar rWS, chE '-', rStar rWS, chI 'S', .grp 2 rD, .la true rD], 2),
    ("S##-S##", rSeq [.lb1 true isWordC, chI 'S', .grp 1 (rDn 2), rStar rWS, chE '-', rStar rWS, chI 'S', .grp 2 (rDn 2), .la true rD], 2),
    ("S#", rSeq [.lb1 true isWordC, chI 'S', .grp 1 rDp, .la true (.cls isAlnumDash)], 1),
    ("S#xE#", rSeq [chI 'S', .grp 1 rDp, chI 'x', rOpt (chI 'e'), .grp 2 rDp], 2),
    ("S#xE#-#", rSeq [chI 'S', .grp 1 rDp, chI 'x', rOpt (chI 'e'), .grp 2 rDp, chE '-', .grp 3 rDp], 3),
    ("Stagione #", rSeq [rS "stagione", rPlus rWS, .grp 1 rDp], 1),
    ("Stagioni #-#", rSeq [rS "stagioni", rPlus rWS, .grp 1 rDp, chE '-', .grp 2 rDp], 2),
    ("Temporada #", rSeq [rS "temporada", rPlus rWS, .grp 1 rDp], 1),
    ("Temporadas #-#", rSeq [rS "temporadas", rPlus rWS, .grp 1 rDp, chE '-', .grp 2 rDp], 2),
    ("Saison #", rSeq [rS "saison", rPlus rWS, .grp 1 rDp], 1),
    ("Complete S#", rSeq [rS "complete", rPlus rWS, chI 'S', .grp 1 rD], 1),
    ("Complete S##", rSeq [rS "complete", rPlus rWS, chI 'S', .grp 1 (rDn 2)], 1),
    ("Complete S#-S#", rSeq [rS "complete", rPlus rWS, chI 'S', .grp 1 rD, rStar rWS, chE '-', rStar rWS, chI 'S', .grp 2 rD], 2),
    ("Complete S##-S##", rSeq [rS "complete", rPlus rWS, chI 'S', .grp 1 (rDn 2), rStar rWS, chE '-', rStar rWS, chI 'S', .grp 2 (rDn 2)], 2),
    ("Season # Complete", rSeq [rS "season", rPlus rWS, .grp 1 rDp, rPlus rWS, rS "complete"], 1),
    ("Season ## Complete", rSeq [rS "season", rPlus rWS, .grp 1 (rDn 2), rPlus rWS, rS "complete"], 1),
    ("S# Complete", rSeq [chI 'S', .grp 1 rD, rPlus rWS, rS "complete"], 1),
    ("S## Complete", rSeq [chI 'S', .grp 1 (rDn 2), rPlus rWS, rS "complete"], 1),
    ("Full S#", rSeq [rS "full", rPlus rWS, chI 'S', .grp 1 rD], 1),
    ("Full S##", rSeq [rS "full", rPlus rWS, chI 'S', .grp 1 (rDn 2)], 1),
    ("S####", rSeq [chI 'S', .grp 1 (rDn 4)], 1),
    ("Season # (####)", rSeq [rS "season", rPlus rWS, .grp 1 rDp, rPlus rWS, chE '(', rDn 4, chE ')'], 1),
    ("Season # Part #", rSeq [rS "season", rPlus rWS, .grp 1 rDp, rPlus rWS, rS "part", rPlus rWS, .grp 2 rDp], 2),
    ("S# Part #", rSeq [chI 'S', .grp 1 rD, rPlus rWS, rS "part", rPlus rWS, .grp 2 rDp], 2),
    ("Season # Vol #", rSeq [rS "season", rPlus rWS, .grp 1 rDp, rPlus rWS, rS "vol", rPlus rWS, .grp 2 rDp], 2),
    ("Season # to #", rSeq [rS "season", rPlus rWS, .grp 1 rDp, rPlus rWS, rS "to", rPlus rWS, .grp 2 rDp], 2),
    ("S# to #", rSeq [chI 'S', .grp 1 rDp, rPlus rWS, rS "to", rPlus rWS, .grp 2 rDp], 2),
    ("Season list", rSeq [rS "season", rPlus rWS, .grp 1 numListRe], 1),
    ("S list", rSeq [.lb1 true isWordC, chI 'S', .grp 1 numListRe, .la true rW], 1),
    ("S+S+S list", rSeq [.wb, .grp 1 sssRunRe, .wb], 1),
    ("Season Roman", rSeq [rS "season", rPlus rWS, .grp 1 (rPlus (.cls isRomanC))], 1),
    ("S Roman", rSeq [.lb1 true isWordC, chI 'S', .grp 1 (rPlus (.cls isRomanC)), .la true rW], 1),
    ("S###", rSeq [chI 'S', .grp 1 (rDn 3)], 1) ]

/-! ## Season parsing (`TorrentParser.parse_season`) -/

/-- `\b(19|20)\d{2}\b` — note the capture group covers only the century
prefix, so `findall` yields `"19"`/`"20"`, exactly as in the source. -/
def reYearsSloppy : RE :=
  rSeq [.wb, .grp 1 (.alt (rS "19") (rS "20")), rDn 2, .wb]

/-- `\b(19\d{2}|20\d{2})\b` — the full-year variant used by
`parse_episode`. -/
def reYearsFull : RE :=
  rSeq [.wb, .grp 1 (.alt (rSeq [rS "19", rDn 2]) (rSeq [rS "20", rDn 2])), .wb]

/-- `\b(360|480|720|1080|1440|2160|4K)p?\b`. -/
def reResolutionsEx : RE :=
  rSeq [.wb, .grp 1 (rOrS ["360", "480", "720", "1080", "1440", "2160", "4K"]),
        rOpt (chI 'p'), .wb]

/-- `\b\d+\.?\d*[GMK]B\b`. -/
def reFileSizeEx : RE :=
  rSeq [.wb, rDp, rOpt (chE '.'), rStar rD, .cls isGMK, chI 'B', .wb]

/-- `\b(HEVC|AVC|AV1|XviD|DivX|VP9|h264|h265)\b`. -/
def reVideoCodecsEx : RE :=
  rSeq [.wb, .grp 1 (rOrS ["HEVC", "AVC", "AV1", "XviD", "DivX", "VP9", "h264", "h265"]), .wb]

/-- `\b(AAC|AC3|DTS|DDP|EAC3|TrueHD|Atmos|MP3|FLAC|Opus|PCM|Vorbis)\b`. -/
def reAudioCodecsEx : RE :=
  rSeq [.wb, .grp 1 (rOrS ["AAC", "AC3", "DTS", "DDP", "EAC3", "TrueHD", "Atmos",
                           "MP3", "FLAC", "Opus", "PCM", "Vorbis"]), .wb]

/-- `(\d+\.?\d*)` — first numeric (possibly decimal) run. -/
def reFirstNum : RE := .grp 1 (rSeq [rDp, rOpt (chE '.'), rStar rD])

/-- `(\d+)` — first digit run. -/
def reFirstDigits : RE := .grp 1 rDp

/-- Numeric exclusions built at the start of `parse_season` (modelled as a
list with membership checks; Python uses a `set` the same way). -/
def seasonExcludeNumbers (nt : Str) : List Str :=
  let years := (finditer reYearsSloppy nt).map (fun m => mgrpD nt m 1)
  let res := (finditer reResolutionsEx nt).map (fun m => mgrpD nt m 1)
  let sizes := (finditer reFileSizeEx nt).map (fun m => mtext nt m)
  let vcodecs := (finditer reVideoCodecsEx nt).map (fun m => mgrpD nt m 1)
  let acodecs := (finditer reAudioCodecsEx nt).map (fun m => mgrpD nt m 1)
  years ++ res ++
  sizes.filterMap (fun sz => (rsearch reFirstNum sz).map (fun m => mgrpD sz m 1)) ++
  (vcodecs ++ acodecs).filterMap
    (fun cd => (rsearch reFirstDigits cd).map (fun m => mgrpD cd m 1))

/-- The `season_priorities` table (default priority 1). -/
def seasonPriority (n : String) : Nat :=
  if n == "Season #" || n == "Season ##" || n == "S#" || n == "S##" ||
     n == "S###" || n == "S####" then 30
  else if n == "Season #-#" || n == "Season ##-##" || n == "S#-#" || n == "S##-##" ||
          n == "Season #-Season #" || n == "Season ##-Season ##" ||
          n == "S#-S#" || n == "S##-S##" || n == "Season # to #" || n == "S# to #" then 25
  else if n == "Season list" || n == "S list" || n == "S+S+S list" then 20
  else if n == "Season # Complete" || n == "Season ## Complete" ||
          n == "S# Complete" || n == "S## Complete" || n == "Complete S#" ||
          n == "Complete S##" || n == "Complete S#-S#" || n == "Complete S##-S##" then 15
  else if n == "Complete Season" || n == "Complete Seasons" || n == "Full Season" ||
          n == "Season Pack" || n == "All Seasons" || n == "All Season" ||
          n == "Full S#" || n == "Full S##" then 10
  else if n == "Season # Part #" || n == "S# Part #" || n == "Season # Vol #" ||
          n == "Season # (####)" || n == "S#xE#" || n == "S#xE#-#" then 5
  else if n == "Season Roman" || n == "S Roman" then 3
  else if n == "Stagione #" || n == "Stagioni #-#" || n == "Temporada #" ||
          n == "Temporadas #-#" || n == "Saison #" then 12
  else 1

/-- One entry of the `potential_matches` dict: matched text, priority and
match start position. -/
structure PotEntry where
  text : Str
  prio : Nat
  pos : Nat
  deriving Repr

/-- The `potential_matches` dict: insertion-ordered, an existing key is
overwritten (in place) only by a strictly higher priority. -/
abbrev PotMap := List (Str × PotEntry)

/-- `if match_key not in potential_matches or priority > ...[1]: ... = v`. -/
def potInsert (pm : PotMap) (key : Str) (e : PotEntry) : PotMap :=
  if (pm.find? (fun kv => kv.1 == key)).isSome then
    pm.map (fun kv => if kv.1 == key && e.prio > kv.2.prio then (key, e) else kv)
  else pm ++ [(key, e)]

/-- `TorrentParser._roman_to_int`. -/
def romanVal (c : Char) : Int :=
  if c == 'I' then 1 else if c == 'V' then 5 else if c == 'X' then 10
  else if c == 'L' then 50 else if c == 'C' then 100 else if c == 'D' then 500
  else if c == 'M' then 1000 else 0

/-- ASCII upper-casing of one character (Python `str.upper`). -/
def upC (c : Char) : Char := if isLowerC c then Char.ofNat (c.toNat - 32) else c

/-- `TorrentParser._roman_to_int` (fold over the reversed, upper-cased
numeral). -/
def romanToInt (s : Str) : Int :=
  ((s.map upC).reverse.foldl
    (fun (st : Int × Int) c =>
      let v := romanVal c
      (if v < st.2 then st.1 - v else st.1 + v, v))
    (0, 0)).1

/-- Pattern labels treated as unnumbered "general" season phrases. -/
def seasonGeneralNames : List String :=
  ["Complete Season", "Complete Seasons", "Full Season", "Season Pack",
   "All Seasons", "All Season"]

/-- Pattern labels treated as complex season aggregates. -/
def seasonComplexNames : List String := ["S+S+S list", "Season list", "S list"]

/-- `re.findall(r'\d+', text)`. -/
def findAllNums (text : Str) : List Str :=
  (finditer rDp text).map (fun m => mtext text m)

/-- `re.findall(r's(?:eason)?\s*(\d+)', text)`. -/
def findAllSNums (text : Str) : List Str :=
  (finditer (rSeq [chI 's', rOpt (rS "eason"), rStar rWS, .grp 1 rDp]) text).map
    (fun m => mgrpD text m 1)

/-- The per-match body of `parse_season`'s second pass: dispatch on the
pattern label / group count and update `potential_matches`. -/
def seasonHandle (nt : Str) (excl : List Str) (pm : PotMap)
    (name : String) (ng : Nat) (m : RMatch) : PotMap :=
  let prio := seasonPriority name
  let pos := m.mstart
  if seasonGeneralNames.contains name then
    potInsert pm name.data ⟨mtext nt m, prio, pos⟩
  else if name == "Season list" || name == "S list" then
    let nums := (findAllNums (mgrpD nt m 1)).filter (fun n => !excl.contains n)
    let vals := nums.map toNatS
    match vals.min?, vals.max? with
    | some lo, some hi =>
      if 1 ≤ lo && lo ≤ 50 && 1 ≤ hi && hi ≤ 50 then
        if lo ≠ hi then
          potInsert pm ("S".data ++ pad2 lo ++ "-S".data ++ pad2 hi) ⟨mtext nt m, prio, pos⟩
        else
          potInsert pm ("S".data ++ pad2 lo) ⟨mtext nt m, prio, pos⟩
      else pm
    | _, _ => pm
  else if name == "S+S+S list" then
    let nums := (findAllSNums (lowS (mgrpD nt m 1))).filter (fun n => !excl.contains n)
    let vals := nums.map toNatS
    match vals.min?, vals.max? with
    | some lo, some hi =>
      if 1 ≤ lo && lo ≤ 50 && 1 ≤ hi && hi ≤ 50 then
        if vals.length > 1 && lo ≠ hi then
          potInsert pm ("S".data ++ pad2 lo ++ "-S".data ++ pad2 hi) ⟨mtext nt m, prio, pos⟩
        else
          potInsert pm ("S".data ++ pad2 lo) ⟨mtext nt m, prio, pos⟩
      else pm
    | _, _ => pm
  else if name == "Season # to #" || name == "S# to #" then
    let s1 := toNatS (mgrpD nt m 1)
    let s2 := toNatS (mgrpD nt m 2)
    if !excl.contains (natToS s1) && !excl.contains (natToS s2) then
      if 1 ≤ s1 && s1 ≤ 50 && 1 ≤ s2 && s2 ≤ 50 then
        let lo := min s1 s2
        let hi := max s1 s2
        if lo ≠ hi then
          potInsert pm ("S".data ++ pad2 lo ++ "-S".data ++ pad2 hi) ⟨mtext nt m, prio, pos⟩
        else pm
      else pm
    else pm
  else if name == "Season Roman" || name == "S Roman" then
    let v := romanToInt (mgrpD nt m 1)
    if 1 ≤ v && v ≤ 50 then
      potInsert pm ("S".data ++ pad2 v.toNat) ⟨mtext nt m, prio, pos⟩
    else pm
  else if ng == 1 then
    let cap := mgrpD nt m 1
    if !excl.contains cap then
      potInsert pm ("S".data ++ zfill 2 cap) ⟨mtext nt m, prio, pos⟩
    else pm
  else if ng == 2 then
    let c1 := mgrpD nt m 1
    let c2 := mgrpD nt m 2
    if !excl.contains c1 && !excl.contains c2 then
      if toNatS c1 ≤ 50 && toNatS c2 ≤ 50 then
        if c1 ≠ c2 then
          potInsert pm ("S".data ++ zfill 2 c1 ++ "-S".data ++ zfill 2 c2) ⟨mtext nt m, prio, pos⟩
        else
          potInsert pm ("S".data ++ zfill 2 c1) ⟨mtext nt m, prio, pos⟩
      else pm
    else pm
  else pm

/-- Character spans of the complex-aggregate matches (first pass). -/
def seasonComplexRanges (nt : Str) : List (Nat × Nat) :=
  seasonPatterns.foldl
    (fun acc e =>
      if seasonComplexNames.contains e.1 then
        acc ++ (finditer e.2.1 nt).map (fun m => (m.mstart, m.mstop))
      else acc) []

/-- Does a simple pattern's match start inside one of the complex spans? -/
def insideComplex (ranges : List (Nat × Nat)) (start : Nat) : Bool :=
  ranges.any (fun r => r.1 ≤ start && start < r.2)

/-- The raw `(label, groups, match)` stream of `parse_season`'s second pass,
in pattern order then match order. -/
def seasonRawMatches (nt : Str) : List (String × Nat × RMatch) :=
  seasonPatterns.foldl
    (fun acc e => acc ++ (finditer e.2.1 nt).map (fun m => (e.1, e.2.2, m))) []

/-- The matches `parse_season` actually processes: a simple pattern whose
match starts inside a complex aggregate span is suppressed. -/
def seasonConsideredMatches (nt : Str) : List (String × Nat × RMatch) :=
  let ranges := seasonComplexRanges nt
  (seasonRawMatches nt).filter
    (fun pm => seasonComplexNames.contains pm.1 || !insideComplex ranges pm.2.2.mstart)

/-- Stable insertion into a descending-sorted list: the new element goes
after all entries whose key is lexicographically `≥` its own, which is the
behaviour of Python's stable `sorted(..., reverse=True)`. -/
def insDesc (keyOf : α → Nat × Nat) (x : α) : List α → List α
  | [] => [x]
  | y :: t =>
    let ky := keyOf y
    let kx := keyOf x
    if ky.1 > kx.1 || (ky.1 == kx.1 && ky.2 ≥ kx.2) then y :: insDesc keyOf x t
    else x :: y :: t

/-- `sorted(items, key=..., reverse=True)` (stable, descending). -/
def sortDesc (keyOf : α → Nat × Nat) (l : List α) : List α :=
  l.foldl (fun acc x => insDesc keyOf x acc) []

/-- `TorrentParser.parse_season`.  (The `seen_seasons` bookkeeping in the
source reads the match keys but never affects the output and is omitted;
the final comma-join deduplicates while preserving order, as in the
source.) -/
def parseSeason (t : Str) : Option Str :=
  let nt := normalizeTitle t
  let excl := seasonExcludeNumbers nt
  let pot := (seasonConsideredMatches nt).foldl
    (fun pm x => seasonHandle nt excl pm x.1 x.2.1 x.2.2) []
  let sorted := sortDesc (fun kv => (kv.2.prio, kv.2.pos)) pot
  let uniq := dedupFirst (sorted.map (fun kv => kv.1))
  if uniq.isEmpty then none else some (joinSep ", ".data uniq)

/-! ## Episode patterns (`_compile_episode_patterns`) -/

/-- `0[1-9]` (day/month fragments). -/
def dd01 : RE := rSeq [chE '0', .cls (fun c => '1' ≤ c && c ≤ '9')]

/-- `1[0-2]`. -/
def dd12 : RE := rSeq [chE '1', .cls (fun c => '0' ≤ c && c ≤ '2')]

/-- `[12][0-9]`. -/
def dd29 : RE := rSeq [rCls "12", rD]

/-- `3[01]`. -/
def dd31 : RE := rSeq [chE '3', rCls "01"]

/-- `(0[1-9]|1[0-2])` — a month. -/
def monthRe : RE := .alt dd01 dd12

/-- `(0[1-9]|[12][0-9]|3[01])` — a day. -/
def dayRe : RE := rOr [dd01, dd29, dd31]

/-- `(19|20)` — a century prefix. -/
def centRe : RE := .alt (rS "19") (rS "20")

/-- `(?!\s*(?:p|i|gb|mb|kbps|Mbps))` — the absolute-episode guard. -/
def absGuard : RE :=
  .la true (rSeq [rStar rWS, rOrS ["p", "i", "gb", "mb", "kbps", "Mbps"]])

/-- `[\dx]` with IGNORECASE. -/
def isDigitOrX (c : Char) : Bool := isDigitC c || lowC c == 'x'

/-- The episode pattern registry, in source order
(`(label, pattern, group count)`). -/
def episodePatterns : List (String × RE × Nat) :=
  [ ("## episodes", rSeq [.wb, .grp 1 (rRepR rD 1 3), rPlus rWS, rS "episodes", .wb], 1),
    ("Episode #-#", rSeq [rS "episode", rPlus rWS, .grp 1 rDp, chE '-', .grp 2 rDp], 2),
    ("Episode # - #", rSeq [rS "episode", rPlus rWS, .grp 1 rDp, rStar rWS, chE '-', rStar rWS, .grp 2 rDp], 2),
    ("Episode ## - ##", rSeq [rS "episode", rPlus rWS, .grp 1 (rDn 2), rStar rWS, chE '-', rStar rWS, .grp 2 (rDn 2)], 2),
    ("Episode ##-##", rSeq [rS "episode", rPlus rWS, .grp 1 (rDn 2), chE '-', .grp 2 (rDn 2)], 2),
    ("EP #-#", rSeq [rS "ep", rPlus rWS, .grp 1 rDp, chE '-', .grp 2 rDp], 2),
    ("EP ##-##", rSeq [rS "ep", rPlus rWS, .grp 1 (rDn 2), rStar rWS, chE '-', rStar rWS, .grp 2 (rDn 2)], 2),
    ("EP (##-##)", rSeq [rS "ep", rStar rWS, chE '(', .grp 1 (rDn 2), chE '-', .grp 2 (rDn 2), chE ')'], 2),
    ("EP#-#", rSeq [rS "ep", .grp 1 rDp, chE '-', .grp 2 rDp], 2),
    ("EP##-##", rSeq [rS "ep", .grp 1 (rDn 2), chE '-', .grp 2 (rDn 2)], 2),
    ("E#-#", rSeq [chI 'e', .grp 1 rD, chE '-', .grp 2 rD], 2),
    ("E##-##", rSeq [chI 'e', .grp 1 (rDn 2), chE '-', .grp 2 (rDn 2)], 2),
    ("E#E#", rSeq [chI 'e', .grp 1 rD, chI 'e', .grp 2 rD], 2),
    ("E##E##", rSeq [chI 'e', .grp 1 (rDn 2), chI 'e', .grp 2 (rDn 2)], 2),
    ("E#-#", rSeq [chI 'e', .grp 1 rDp, chE '-', .grp 2 rDp], 2),
    ("E#-#", rSeq [.lb1 true (fun c => lowC c == 'x'), chI 'e', .grp 1 rDp, chE '-', .grp 2 rDp], 2),
    ("E##-##", rSeq [chI 'e', .grp 1 (rDn 2), chE '-', .grp 2 (rDn 2)], 2),
    ("Episodes # - #", rSeq [rS "episodes", rPlus rWS, .grp 1 rDp, rStar rWS, chE '-', rStar rWS, .grp 2 rDp], 2),
    ("Episodes ## - ##", rSeq [rS "episodes", rPlus rWS, .grp 1 (rDn 2), rStar rWS, chE '-', rStar rWS, .grp 2 (rDn 2)], 2),
    ("Episodes #-#", rSeq [rS "episodes", rPlus rWS, .grp 1 rDp, chE '-', .grp 2 rDp], 2),
    ("Episodes ##-##", rSeq [rS "episodes", rPlus rWS, .grp 1 (rDn 2), chE '-', .grp 2 (rDn 2)], 2),
    ("Episodes # to #", rSeq [rS "episodes", rPlus rWS, .grp 1 rDp, rPlus rWS, rS "to", rPlus rWS, .grp 2 rDp], 2),
    ("Episodes ## to ##", rSeq [rS "episodes", rPlus rWS, .grp 1 (rDn 2), rPlus rWS, rS "to", rPlus rWS, .grp 2 (rDn 2)], 2),
    ("Ep # to #", rSeq [rS "ep", rPlus rWS, .grp 1 rDp, rPlus rWS, rS "to", rPlus rWS, .grp 2 rDp], 2),
    ("Ep ## to ##", rSeq [rS "ep", rPlus rWS, .grp 1 (rDn 2), rPlus rWS, rS "to", rPlus rWS, .grp 2 (rDn 2)], 2),
    ("E# to E#", rSeq [chI 'e', .grp 1 rD, rPlus rWS, rS "to", rPlus rWS, chI 'e', .grp 2 rD], 2),
    ("E## to E##", rSeq [chI 'e', .grp 1 (rDn 2), rPlus rWS, rS "to", rPlus rWS, chI 'e', .grp 2 (rDn 2)], 2),
    ("EP #", rSeq [rS "ep", rPlus rWS, .grp 1 rDp], 1),
    ("EP ##", rSeq [rS "ep", rPlus rWS, .grp 1 (rDn 2)], 1),
    ("EP (##)", rSeq [rS "ep", rStar rWS, chE '(', .grp 1 (rDn 2), chE ')'], 1),
    ("EP#", rSeq [rS "ep", .grp 1 rDp], 1),
    ("EP##", rSeq [rS "ep", .grp 1 (rDn 2)], 1),
    ("E#", rSeq [chI 'e', .grp 1 rD, .wb], 1),
    ("E##", rSeq [chI 'e', .grp 1 (rDn 2)], 1),
    ("S#xE#", rSeq [chI 's', .grp 1 rDp, chI 'x', rOpt (chI 'e'), .grp 2 rDp], 2),
    ("Episode #", rSeq [rS "episode", rPlus rWS, .grp 1 rDp], 1),
    ("Episode ##", rSeq [rS "episode", rPlus rWS, .grp 1 (rDn 2)], 1),
    ("Complete Episodes", rSeq [rS "complete", rPlus (rCls "-_. "), rS "episodes"], 0),
    ("All Episodes", rSeq [rS "all", rPlus (rCls "-_. "), rS "episodes"], 0),
    ("Full Episode", rSeq [rS "full", rPlus (rCls "-_. "), rS "episode"], 0),
    ("All Episode", rSeq [rS "all", rPlus (rCls "-_. "), rS "episode"], 0),
    ("Special Episode", rSeq [rS "special", rPlus (rCls "-_. "), rS "episode"], 0),
    ("Bonus Episode", rSeq [rS "bonus", rPlus (rCls "-_. "), rS "episode"], 0),
    ("Pilot Episode", rSeq [rS "pilot", rPlus (rCls "-_. "), rS "episode"], 0),
    ("Final Episode", rSeq [rS "final", rPlus (rCls "-_. "), rS "episode"], 0),
    ("Premiere Episode", rSeq [rS "premiere", rPlus (rCls "-_. "), rS "episode"], 0),
    ("Season Finale", rSeq [rS "season", rPlus (rCls "-_. "), rS "finale"], 0),
    ("Series Finale", rSeq [rS "series", rPlus (rCls "-_. "), rS "finale"], 0),
    ("Part #", rSeq [rS "part", rPlus rWS, .grp 1 rDp], 1),
    ("Part ##", rSeq [rS "part", rPlus rWS, .grp 1 (rDn 2)], 1),
    ("Part # & #", rSeq [rS "part", rPlus rWS, .grp 1 rDp, rStar rWS, chE '&', rStar rWS, .grp 2 rDp], 2),
    ("Part ## & ##", rSeq [rS "part", rPlus rWS, .grp 1 (rDn 2), rStar rWS, chE '&', rStar rWS, .grp 2 (rDn 2)], 2),
    ("Chapters #-#", rSeq [rS "chapters", rPlus rWS, .grp 1 rDp, chE '-', .grp 2 rDp], 2),
    ("Chapters ##-##", rSeq [rS "chapters", rPlus rWS, .grp 1 (rDn 2), chE '-', .grp 2 (rDn 2)], 2),
    ("Absolute ##", rSeq [.wb, .grp 1 (rRepR rD 2 3), .wb, absGuard], 1),
    ("Absolute ###", rSeq [.wb, .grp 1 (rRepR rD 3 4), .wb, absGuard], 1),
    ("YYYY-MM-DD", rSeq [.grp 1 centRe, rDn 2, rCls "-_. ", .grp 2 monthRe, rCls "-_. ", .grp 3 dayRe, .wb], 3),
    ("YYYY.MM.DD", rSeq [.grp 1 centRe, rDn 2, chE '.', .grp 2 monthRe, chE '.', .grp 3 dayRe, .wb], 3),
    ("DD-MM-YYYY", rSeq [.grp 1 dayRe, rCls "-_. ", .grp 2 monthRe, rCls "-_. ", .grp 3 centRe, rDn 2, .wb], 3),
    ("MM-DD-YYYY", rSeq [.grp 1 monthRe, rCls "-_. ", .grp 2 dayRe, rCls "-_. ", .grp 3 centRe, rDn 2, .wb], 3),
    ("YYYYMMDD", rSeq [.grp 1 centRe, rDn 2, .grp 2 monthRe, .grp 3 dayRe, .wb], 3),
    ("E###", rSeq [chI 'e', .grp 1 (rDn 3)], 1),
    ("EP###", rSeq [rS "ep", .grp 1 (rDn 3)], 1),
    ("Split E#", rSeq [chI 'e', .grp 1 rDp, .grp 2 (.cls (fun c => 'a' ≤ lowC c && lowC c ≤ 'd'))], 2),
    ("Part One", rSeq [rS "part", rPlus rWS, .grp 1 (rOrS ["one", "two", "three", "four", "five", "six", "seven", "eight", "nine"])], 1),
    ("XofY", rSeq [.grp 1 rDp, rStar rWS, rS "of", rStar rWS, rDp], 1),
    ("E####", rSeq [chI 'e', .grp 1 (rDn 4)], 1),
    ("EP####", rSeq [rS "ep", .grp 1 (rDn 4)], 1),
    ("Bolum #", rSeq [rS "bolum", rPlus rWS, .grp 1 rDp], 1),
    ("BLM #", rSeq [rS "blm", rPlus rWS, .grp 1 rDp], 1),
    ("Single E#", rSeq [.lb1 true isDigitOrX, .alt (chI 'e') (rS "ep"), .grp 1 rD, .la true rD], 1) ]

/-- The special-episode patterns (`_compile_special_episode_patterns`). -/
def specialEpisodePatterns : List RE :=
  [ rSeq [chE '.', chI 'S', rDp, chI 'E', rS "00", chE '.', .grp 1 (rPlusL rDot),
          .alt (rSeq [chE '.', rOrS ["720p", "1080p", "2160p", "HDTV", "WEB", "WEBRip", "WEB-DL"], chE '.']) .eos],
    rSeq [chE '.', chI 'S', rDp, chE '.', rS "Special", chE '.', .grp 1 (rPlusL rDot),
          .alt (rSeq [chE '.', rOrS ["720p", "1080p", "2160p", "HDTV", "WEB", "WEBRip", "WEB-DL"], chE '.']) .eos],
    rSeq [.wb, rOrS ["special", "ova", "ovd", "oav", "bonus", "extra", "speciale"], .wb] ]

/-! ## Episode parsing (`TorrentParser.parse_episode`) -/

/-- Python slice `s[a:b]` (with the usual clamping). -/
def sliceS (s : Str) (a b : Nat) : Str := (s.take b).drop a

/-- `^(19|20)\d{2}$` applied to a short numeric string. -/
def looksLikeYear (n : Str) : Bool :=
  n.length == 4 && (startsWithS n "19".data || startsWithS n "20".data) &&
  ((n.drop 2).all isDigitC)

/-- `datetime.now().year + 1`, frozen at embedding time (2026 + 1). -/
def currentYearPlus1 : Nat := 2027

/-- `TorrentParser._is_likely_year_range`. -/
def isLikelyYearRange (n1 n2 : Str) (pos : Nat) (nt : Str) : Bool :=
  if n1.length == 4 && n2.length == 4 && isDigitsS n1 && isDigitsS n2 &&
     1900 ≤ toNatS n1 && toNatS n1 ≤ currentYearPlus1 &&
     1900 ≤ toNatS n2 && toNatS n2 ≤ currentYearPlus1 then true
  else if looksLikeYear n1 && looksLikeYear n2 then true
  else if n1.length < 3 || n2.length < 3 then false
  else
    let context := lowS (sliceS nt (pos - 20) (min nt.length (pos + n1.length + n2.length + 20)))
    if ["year", "aired", "released", "broadcast", "©", "(c)"].any
         (fun w => containsSub context w.data) then true
    else
      let epContext := lowS (sliceS nt (pos - 10) pos)
      if ["episode", "ep", "e", "part", "chapter", "episodes"].any
           (fun w => containsSub epContext w.data) then false
      else false

/-- `TorrentParser._is_in_audio_context`. -/
def isInAudioContext (n : Str) (pos : Nat) (nt : Str) : Bool :=
  let context := lowS (sliceS nt (pos - 10) (min nt.length (pos + n.length + 10)))
  ["aac", "ac", "dd", "ddp", "eac", "dts", "truehd", "atmos", "5.1", "7.1", "2.0"].any
    (fun w => containsSub context w.data)

/-- `TorrentParser._is_likely_season_context`. -/
def isLikelySeasonContext (n : Str) (pos : Nat) (nt : Str) : Bool :=
  let context := lowS (sliceS nt (pos - 20) (min nt.length (pos + n.length + 20)))
  let hasSeason := ["season", "saison", "temporada", "stagione", "complete", "full", "pack"].any
    (fun w => containsSub context w.data)
  let hasEpisode := ["episode", "ep", "e", "chapter", "part", "eps"].any
    (fun w => containsSub context w.data)
  let hasFalsePos := ["gb", "mb", "movies", "movie", "collection", "collections", "size", "hr", "min"].any
    (fun w => containsSub context w.data)
  let ep15 := stripWS (lowS (sliceS nt (pos - 15) pos))
  if hasEpisode &&
     (endsWithS ep15 "episode ".data || endsWithS ep15 "ep ".data ||
      endsWithS ep15 "e ".data || endsWithS ep15 "episodes ".data ||
      containsSub ep15 "episode ".data || containsSub ep15 "ep ".data ||
      containsSub ep15 "episodes ".data) then false
  else
    let pre10 := stripWS (lowS (sliceS nt (pos - 10) pos))
    if hasSeason && !hasEpisode &&
       (endsWithS pre10 "season ".data || endsWithS pre10 "saison ".data ||
        endsWithS pre10 "temporada ".data || endsWithS pre10 "stagione ".data ||
        (endsWithS pre10 "s ".data &&
         !(endsWithS pre10 "eps ".data || endsWithS pre10 "ep ".data))) then true
    else if hasFalsePos && !hasEpisode then true
    else if pos > 0 then
      let following := lowS (sliceS nt (pos + n.length) (min nt.length (pos + n.length + 10)))
      if endsWithS pre10 "season".data || endsWithS pre10 "saison".data ||
         endsWithS pre10 "temporada".data || endsWithS pre10 "stagione".data ||
         (endsWithS pre10 "s".data &&
          !(endsWithS pre10 "eps".data || endsWithS pre10 "ep".data)) then true
      else if startsWithS following ".gb".data || startsWithS following "gb".data ||
              startsWithS following ".mb".data || startsWithS following "mb".data ||
              startsWithS following "movies".data || startsWithS following "movie".data then true
      else false
    else false

/-- The labels of the "complete/special phrase" episode patterns. -/
def completeEpisodeNames : List String :=
  ["Complete Episodes", "All Episodes", "Full Episode", "All Episode",
   "Special Episode", "Bonus Episode", "Pilot Episode", "Final Episode",
   "Premiere Episode", "Season Finale", "Series Finale"]

/-- The `range_patterns` priority table of `parse_episode`. -/
def episodeRangePrio (n : String) : Option Nat :=
  if n == "Episodes # - #" || n == "Episodes ## - ##" || n == "Episodes #-#" ||
     n == "Episodes ##-##" || n == "Episodes # to #" || n == "Episodes ## to ##" then some 15
  else if n == "Episode #-#" || n == "Episode # - #" || n == "Episode ## - ##" ||
          n == "Episode ##-##" then some 10
  else if n == "EP #-#" || n == "EP ##-##" || n == "EP (##-##)" || n == "EP#-#" ||
          n == "EP##-##" || n == "E#-#" || n == "E##-##" || n == "E#E#" ||
          n == "E##E##" then some 8
  else if n == "Ep # to #" || n == "Ep ## to ##" || n == "E# to E#" ||
          n == "E## to E##" then some 6
  else none

/-- Provenance of one entry of the episode result. -/
inductive EpSrc : Type where
  | special : EpSrc
  | complete : EpSrc
  | count : EpSrc
  | range : EpSrc
  | splitE : EpSrc
  | partOne : EpSrc
  | xofy : EpSrc
  | one : EpSrc
  | two : EpSrc
  | three : EpSrc
  | absEp : EpSrc
  | date : EpSrc
  deriving Repr, DecidableEq

/-- One entry of `parse_episode`'s `potential_matches` dict (text, priority,
plus the provenance annotation). -/
structure EpPotE where
  text : Str
  prio : Nat
  src : EpSrc
  deriving Repr

/-- The episode `potential_matches` dict. -/
abbrev EpPot := List (Str × EpPotE)

/-- Insert into `potential_matches` (overwrite only on strictly higher
priority, keeping the original insertion position). -/
def epPotInsert (pm : EpPot) (key : Str) (e : EpPotE) : EpPot :=
  if (pm.find? (fun kv => kv.1 == key)).isSome then
    pm.map (fun kv => if kv.1 == key && e.prio > kv.2.prio then (key, e) else kv)
  else pm ++ [(key, e)]

/-- `part_map` of the `"Part One"` branch. -/
def partWordVal (w : Str) : Option Nat :=
  if w == "one".data then some 1 else if w == "two".data then some 2
  else if w == "three".data then some 3 else if w == "four".data then some 4
  else if w == "five".data then some 5 else if w == "six".data then some 6
  else if w == "seven".data then some 7 else if w == "eight".data then some 8
  else if w == "nine".data then some 9 else none

/-- `(?:AAC|AC|DD|DDP|EAC)(\d+\.?\d*)` — audio channel numbers. -/
def reAudioNums : RE :=
  rSeq [rOrS ["AAC", "AC", "DD", "DDP", "EAC"],
        .grp 1 (rSeq [rDp, rOpt (chE '.'), rStar rD])]

/-- The numeric exclusions built at the start of `parse_episode` (this
variant captures full 4-digit years, unlike `parse_season`). -/
def episodeExcludeNumbers (nt : Str) : List Str :=
  let years := (finditer reYearsFull nt).map (fun m => mgrpD nt m 1)
  let res := (finditer reResolutionsEx nt).map (fun m => mgrpD nt m 1)
  let sizes := (finditer reFileSizeEx nt).map (fun m => mtext nt m)
  let vcodecs := (finditer reVideoCodecsEx nt).map (fun m => mgrpD nt m 1)
  let acodecs := (finditer reAudioCodecsEx nt).map (fun m => mgrpD nt m 1)
  let audioNums := (finditer reAudioNums nt).map (fun m => mgrpD nt m 1)
  years ++ res ++
  sizes.filterMap (fun sz => (rsearch reFirstNum sz).map (fun m => mgrpD sz m 1)) ++
  (vcodecs ++ acodecs).filterMap
    (fun cd => (rsearch reFirstDigits cd).map (fun m => mgrpD cd m 1)) ++
  audioNums

/-- `re.findall(r'S(\d+)', season_info)` (case-sensitive). -/
def seasonNumsOf (seasonInfo : Str) : List Str :=
  (finditer (rSeq [chE 'S', .grp 1 rDp]) seasonInfo).map (fun m => mgrpD seasonInfo m 1)

/-- Context threaded through `parse_episode`'s scanning loop. -/
structure EpCtx where
  nt : Str
  excl : List Str
  seasonNums : List Str

/-- Accumulator of the scanning loop: emitted matches (annotated) and the
`potential_matches` dict. -/
abbrev EpAcc := List (EpSrc × Str) × EpPot

/-- The per-match body of `parse_episode`'s scanning loop. -/
def epStep (ctx : EpCtx) (acc : EpAcc) (name : String) (ng : Nat) (m : RMatch) : EpAcc :=
  let nt := ctx.nt
  let lname := lowS name.data
  let isEp := (episodeRangePrio name).isSome || name == "## episodes" ||
    containsSub lname "episode".data || containsSub lname "ep".data
  -- episode-count branch ("## episodes"): always ends the match's processing
  if isEp && name == "## episodes" then
    let cap := mgrpD nt m 1
    if ctx.seasonNums.contains cap then acc
    else if !ctx.excl.contains cap && isDigitsS cap &&
            1 ≤ toNatS cap && toNatS cap ≤ 200 then
      (acc.1, epPotInsert acc.2 ("E1-E".data ++ natToS (toNatS cap))
                ⟨mtext nt m, 5, .count⟩)
    else acc
  -- explicit-range branch: always ends the match's processing
  else if isEp && (episodeRangePrio name).isSome then
    let prio := (episodeRangePrio name).getD 0
    if ng ≥ 2 then
      let e1 := mgrpD nt m 1
      let e2 := mgrpD nt m 2
      if isLikelyYearRange e1 e2 (mgrpStart m 1) nt then acc
      else if ctx.excl.contains e1 || ctx.excl.contains e2 then acc
      else if isDigitsS e1 && isDigitsS e2 && toNatS e1 ≤ 200 && toNatS e2 ≤ 200 &&
              toNatS e1 > 0 && toNatS e2 > 0 then
        (acc.1, epPotInsert acc.2
          ("E".data ++ zfill 2 e1 ++ "-E".data ++ zfill 2 e2) ⟨mtext nt m, prio, .range⟩)
      else acc
    else acc
  else
    -- all remaining patterns: season-context filter, then dispatch
    let en? := if ng ≥ 1 then mgrp nt m 1 else none
    let skipSeason :=
      match en? with
      | some en => isLikelySeasonContext en (mgrpStart m 1) nt
      | none => false
    if skipSeason then acc
    else if name == "Split E#" then
      let en := mgrpD nt m 1
      let sc := mgrpD nt m 2
      if !ctx.excl.contains en then (acc.1 ++ [(.splitE, "E".data ++ en ++ sc)], acc.2)
      else acc
    else if name == "Part One" then
      match partWordVal (lowS (mgrpD nt m 1)) with
      | some k => (acc.1 ++ [(.partOne, "Part".data ++ natToS k)], acc.2)
      | none => acc
    else if name == "XofY" then
      let en := mgrpD nt m 1
      if !ctx.excl.contains en then (acc.1 ++ [(.xofy, "E".data ++ en)], acc.2)
      else acc
    else if ng == 1 then
      let en := mgrpD nt m 1
      if !ctx.excl.contains en && isDigitsS en && toNatS en ≤ 200 &&
         !isInAudioContext en (mgrpStart m 1) nt then
        (acc.1 ++ [(.one, "E".data ++ zfill 2 en)], acc.2)
      else acc
    else if ng == 2 then
      if (episodeRangePrio name).isNone then
        let e1 := mgrpD nt m 1
        let e2 := mgrpD nt m 2
        if !ctx.excl.contains e1 && !ctx.excl.contains e2 &&
           isDigitsS e1 && isDigitsS e2 && toNatS e1 ≤ 200 && toNatS e2 ≤ 200 then
          (acc.1 ++ [(.two, "E".data ++ zfill 2 e1 ++ "-E".data ++ zfill 2 e2)], acc.2)
        else acc
      else acc
    else if ng == 3 then
      if (episodeRangePrio name).isNone then
        let e1 := mgrpD nt m 2
        let e2 := mgrpD nt m 3
        if !ctx.excl.contains e1 && !ctx.excl.contains e2 &&
           isDigitsS e1 && isDigitsS e2 && toNatS e1 ≤ 200 && toNatS e2 ≤ 200 then
          (acc.1 ++ [(.three, "E".data ++ zfill 2 e1 ++ "-E".data ++ zfill 2 e2)], acc.2)
        else acc
      else acc
    else if startsWithS lname "absolute".data then
      let an := mgrpD nt m 1
      if !ctx.excl.contains an && isDigitsS an && toNatS an ≤ 2000 &&
         !isInAudioContext an (mgrpStart m 1) nt && acc.2.isEmpty then
        (acc.1 ++ [(.absEp, "Abs".data ++ zfill 3 an)], acc.2)
      else acc
    else acc

/-- The three date patterns scanned after the main loop (these have no
trailing word boundary, unlike the registry's date entries). -/
def epDatePatterns : List RE :=
  [ rSeq [.grp 1 centRe, rDn 2, rCls "-_. ", .grp 2 monthRe, rCls "-_. ", .grp 3 dayRe],
    rSeq [.grp 1 dayRe, rCls "-_. ", .grp 2 monthRe, rCls "-_. ", .grp 3 centRe, rDn 2],
    rSeq [.grp 1 monthRe, rCls "-_. ", .grp 2 dayRe, rCls "-_. ", .grp 3 centRe, rDn 2] ]

/-- `"Special"` entries contributed by the special-episode patterns. -/
def specialEpisodeHits (nt : Str) : List (EpSrc × Str) :=
  specialEpisodePatterns.filterMap
    (fun re => if rtest re nt then some (.special, "Special".data) else none)

/-- Complete-phrase entries contributed by the complete patterns. -/
def completeEpisodeHits (nt : Str) : List (EpSrc × Str) :=
  episodePatterns.filterMap
    (fun e =>
      if completeEpisodeNames.contains e.1 && rtest e.2.1 nt then
        some (.complete, e.1.data)
      else none)

/-- One pattern of the scanning loop: complete-phrase labels were already
handled and are skipped; otherwise every match of the pattern is fed to
`epStep`. -/
def epPatStep (ctx : EpCtx) (acc : EpAcc) (e : String × RE × Nat) : EpAcc :=
  if completeEpisodeNames.contains e.1 then acc
  else (finditer e.2.1 ctx.nt).foldl (fun acc m => epStep ctx acc e.1 e.2.2 m) acc

/-- `TorrentParser.parse_episode`, instrumented with the provenance of each
emitted component (the provenance annotations do not influence the computed
strings). -/
def parseEpisodeAnn (t : Str) : List (EpSrc × Str) :=
  let nt := normalizeTitle t
  let specials := specialEpisodeHits nt
  let completes := completeEpisodeHits nt
  if !completes.isEmpty then specials ++ completes
  else
    let seasonInfo := (parseSeason t).getD []
    let ctx : EpCtx := ⟨nt, episodeExcludeNumbers nt, seasonNumsOf seasonInfo⟩
    let acc : EpAcc := episodePatterns.foldl (epPatStep ctx) (specials, [])
    let potSorted := sortDesc (fun kv => (kv.2.prio, 0)) acc.2
    let ems := acc.1 ++ potSorted.map (fun kv => (kv.2.src, kv.1))
    let dates := epDatePatterns.foldl
      (fun ds re =>
        ds ++ (finditer re nt).map
          (fun m => (EpSrc.date,
            "Date:".data ++ mgrpD nt m 1 ++ "-".data ++ mgrpD nt m 2 ++
            "-".data ++ mgrpD nt m 3)))
      []
    ems ++ dates

/-- `TorrentParser.parse_episode`. -/
def parseEpisode (t : Str) : Option Str :=
  let ems := parseEpisodeAnn t
  if ems.isEmpty then none
  else some (joinSep ", ".data (ems.map (fun e => e.2)))

/-! ## Content-type detection (`TorrentParser._detect_content_type`) -/

/-- The movie-indicator patterns, in source order. -/
def movieIndicators : List RE :=
  [ rWord "movie",
    rWord "film",
    rWord "feature",
    rSeq [.wb, rS "collection", rOpt (chI 's'), .wb],
    rSeq [.wb, rS "complete collection", rOpt (chI 's'), .wb],
    rSeq [.wb, rDn 4, rS " collection", rOpt (chI 's'), .wb],
    rSeq [.wb, rDp, rS " movie", rOpt (chI 's'), .wb],
    rSeq [.wb, rS "all movie", rOpt (chI 's'), .wb],
    rSeq [.wb, rS "full movie", rOpt (chI 's'), .wb] ]

/-- The series-indicator patterns, in source order. -/
def seriesIndicators : List RE :=
  [ rWord "season",
    rWord "episode",
    rWord "ep",
    rSeq [.wb, chI 's', rDp, .wb],
    rSeq [.wb, chI 'e', rDp, .wb],
    rWord "series",
    rWord "show",
    rWord "tv",
    rSeq [.wb, rS "complete series", .wb],
    rSeq [.wb, rS "complete season", rOpt (chI 's'), .wb],
    rSeq [.wb, rS "all episodes", .wb] ]

/-- `TorrentParser._detect_content_type` (the raw title is passed but
unused, as in the source: any movie indicator wins outright, otherwise any
series indicator, defaulting to series). -/
def detectContentType (_t nt : Str) : Str :=
  if movieIndicators.any (fun re => rtest re nt) then "movie".data
  else if seriesIndicators.any (fun re => rtest re nt) then "series".data
  else "series".data

/-- Number of movie-indicator patterns that match. -/
def movieVotes (nt : Str) : Nat :=
  (movieIndicators.filter (fun re => rtest re nt)).length

/-- Number of series-indicator patterns that match. -/
def seriesVotes (nt : Str) : Nat :=
  (seriesIndicators.filter (fun re => rtest re nt)).length

/-- The classification described by the specification's words ("a keyword
vote between a movie-indicator phrase set and a series-indicator phrase set,
defaulting to series when neither side wins (tie or no match)"), stated for
comparison with `detectContentType`. -/
def contentTypeVoteSpec (nt : Str) : Str :=
  if movieVotes nt > seriesVotes nt then "movie".data else "series".data

/-! ## Auxiliary extractors -/

/-- Case-sensitive literal string. -/
def rSx (s : String) : RE := rSeq (s.data.map chE)

/-- The resolution registry (`_compile_resolution_patterns`). -/
def resolutionPatterns : List (String × RE) :=
  [ ("###p", rSeq [.wb, .grp 1 (rRepR rD 3 4), chI 'p', .wb]),
    ("###i", rSeq [.wb, .grp 1 (rRepR rD 3 4), chI 'i', .wb]),
    ("####x###", rSeq [.wb, .grp 1 (rRepR rD 3 4), chI 'x', .grp 2 (rRepR rD 3 4), .wb]),
    ("4K", rWord "4K"),
    ("SD", rWord "SD"),
    ("HD", rWord "HD"),
    ("FHD", rWord "FHD"),
    ("UHD", rWord "UHD"),
    ("QHD", rWord "QHD"),
    ("WQHD", rWord "WQHD"),
    ("RawHD", rSeq [.wb, rS "Raw", rOpt (rCls "-_. "), rS "HD", .wb]) ]

/-- Scan a registry in order and return the first hit whose renderer
accepts it (a renderer returning `none` lets scanning continue, which is
what the source's fall-through branches do). -/
def firstHit (pats : List (String × RE)) (nt : Str)
    (render : String → RMatch → Option Str) : Option Str :=
  match pats with
  | [] => none
  | (name, re) :: rest =>
    match rsearch re nt with
    | some m =>
      match render name m with
      | some r => some r
      | none => firstHit rest nt render
    | none => firstHit rest nt render

/-- `TorrentParser.parse_resolution`. -/
def parseResolution (t : Str) : Option Str :=
  let nt := normalizeTitle t
  firstHit resolutionPatterns nt (fun name m =>
    if name == "###p" then some (mgrpD nt m 1 ++ "p".data)
    else if name == "###i" then some (mgrpD nt m 1 ++ "i".data)
    else if name == "####x###" then some (mgrpD nt m 1 ++ "x".data ++ mgrpD nt m 2)
    else some name.data)

/-- The video-codec registry (`_compile_video_codec_patterns`). -/
def videoCodecPatterns : List (String × RE) :=
  [ ("x###", rSeq [.wb, chI 'x', .grp 1 rDp, .wb]),
    ("H###", rSeq [.wb, chI 'H', .grp 1 rDp, .wb]),
    ("H.###", rSeq [.wb, chI 'H', chE '.', .grp 1 rDp, .wb]),
    ("HEVC", rWord "HEVC"),
    ("AVC", rWord "AVC"),
    ("AV1", rWord "AV1"),
    ("XviD", rWord "XviD"),
    ("DivX", rWord "DivX"),
    ("VP9", rWord "VP9"),
    ("h264", rWord "h264"),
    ("h265", rWord "h265"),
    ("MPEG2", rSeq [.wb, rS "MPEG", rOpt (rCls "-_. "), chE '2', .wb]),
    ("VC-1", rSeq [.wb, rS "VC", rOpt (rCls "-_. "), chE '1', .wb]) ]

/-- `TorrentParser.parse_video_codec` (the numbered labels are rendered as
the label's first character followed by the capture). -/
def parseVideoCodec (t : Str) : Option Str :=
  let nt := normalizeTitle t
  firstHit videoCodecPatterns nt (fun name m =>
    if name == "x###" || name == "H###" || name == "H.###" then
      some (name.data.take 1 ++ mgrpD nt m 1)
    else some name.data)

/-- The audio-codec registry (`_compile_audio_codec_patterns`).  Note that
`5.1`, `7.1` and `2.0` use an unescaped `.` in the source, which matches any
character. -/
def audioCodecPatterns : List (String × RE) :=
  [ ("AAC", rWord "AAC"),
    ("AAC#.#", rSeq [.wb, rS "AAC", .grp 1 (rSeq [rDp, rOpt (chE '.'), rStar rD]), .wb]),
    ("DDP#.#", rSeq [.wb, rS "DD", rOpt (chI 'P'), .grp 1 (rSeq [rDp, rOpt (chE '.'), rStar rD]), .wb]),
    ("AC#", rSeq [.wb, rS "AC", .grp 1 rDp, .wb]),
    ("AC#.#", rSeq [.wb, rS "AC", .grp 1 (rSeq [rDp, rOpt (chE '.'), rStar rD]), .wb]),
    ("DD#.#", rSeq [.wb, rS "DD", .grp 1 (rSeq [rDp, rOpt (chE '.'), rStar rD]), .wb]),
    ("DD+", rSeq [.wb, rS "DD", chE '+', .wb]),
    ("EAC#", rSeq [.wb, rS "EAC", .grp 1 rDp, .wb]),
    ("DTS", rWord "DTS"),
    ("DLMux", rWord "DLMux"),
    ("DTS-HD", rSeq [.wb, rS "DTS", rCls "-.", rS "HD", .wb]),
    ("DTS-X", rSeq [.wb, rS "DTS", rCls "-.", chI 'X', .wb]),
    ("TrueHD", rWord "TrueHD"),
    ("Atmos", rWord "Atmos"),
    ("MP#", rSeq [.wb, rS "MP", .grp 1 rDp, .wb]),
    ("FLAC", rWord "FLAC"),
    ("Opus", rWord "Opus"),
    ("PCM", rWord "PCM"),
    ("5.1", rSeq [.wb, chE '5', rDot, chE '1', .wb]),
    ("7.1", rSeq [.wb, chE '7', rDot, chE '1', .wb]),
    ("2.0", rSeq [.wb, chE '2', rDot, chE '0', .wb]),
    ("Vorbis", rWord "Vorbis") ]

/-- `TorrentParser.parse_audio_codec` (numbered labels are rendered as the
label's first three characters followed by the capture). -/
def parseAudioCodec (t : Str) : Option Str :=
  let nt := normalizeTitle t
  firstHit audioCodecPatterns nt (fun name m =>
    if name == "AAC#.#" || name == "DDP#.#" || name == "AC#" || name == "AC#.#" ||
       name == "DD#.#" || name == "EAC#" || name == "MP#" then
      some (name.data.take 3 ++ mgrpD nt m 1)
    else some name.data)

/-- The filesize registry (`_compile_filesize_patterns`). -/
def filesizePatterns : List (String × RE) :=
  [ ("###MB", rSeq [.wb, .grp 1 rDp, rS "MB", .wb]),
    ("###GB", rSeq [.wb, .grp 1 rDp, rS "GB", .wb]),
    ("###.#GB", rSeq [.wb, .grp 1 (rSeq [rDp, chE '.', rDp]), rS "GB", .wb]),
    ("###.#MB", rSeq [.wb, .grp 1 (rSeq [rDp, chE '.', rDp]), rS "MB", .wb]),
    ("###KB", rSeq [.wb, .grp 1 rDp, rS "KB", .wb]),
    ("###TB", rSeq [.wb, .grp 1 rDp, rS "TB", .wb]),
    ("###.#TB", rSeq [.wb, .grp 1 (rSeq [rDp, chE '.', rDp]), rS "TB", .wb]) ]

/-- `TorrentParser.parse_filesize`. -/
def parseFilesize (t : Str) : Option Str :=
  let nt := normalizeTitle t
  firstHit filesizePatterns nt (fun name m =>
    if name == "###MB" || name == "###.#MB" then some (mgrpD nt m 1 ++ "MB".data)
    else if name == "###GB" || name == "###.#GB" then some (mgrpD nt m 1 ++ "GB".data)
    else if name == "###KB" then some (mgrpD nt m 1 ++ "KB".data)
    else some (mgrpD nt m 1 ++ "TB".data))

/-- The filetype registry (`_compile_filetype_patterns`). -/
def filetypePatterns : List (String × RE) :=
  [".mkv", ".mp4", ".avi", ".m4v", ".mpg", ".mpeg", ".ass", ".ssa", ".srt",
   ".sub", ".idx", ".iso", ".ts", ".m2ts", ".vob", ".rar", ".zip", ".7z"].map
    (fun ext => (ext, rSeq [chE '.', rS (ext.drop 1), .wb]))

/-- `TorrentParser.parse_filetype`. -/
def parseFiletype (t : Str) : Option Str :=
  let nt := normalizeTitle t
  firstHit filetypePatterns nt (fun name _ => some name.data)

/-! ## Language extraction (`TorrentParser.parse_language`) -/

/-- Lexicographic (code-point) comparison, Python `<` on strings. -/
def strLt : Str → Str → Bool
  | [], [] => false
  | [], _ :: _ => true
  | _ :: _, [] => false
  | a :: s, b :: t => if a.toNat < b.toNat then true
                      else if b.toNat < a.toNat then false
                      else strLt s t

/-- Stable ascending insertion sort by `strLt` (Python `sorted`). -/
def sortAsc (l : List Str) : List Str :=
  let rec ins (x : Str) : List Str → List Str
    | [] => [x]
    | y :: t => if strLt x y then x :: y :: t else y :: ins x t
  l.foldl (fun acc x => ins x acc) []

/-- The language registry (`_compile_language_patterns`). -/
def languagePatterns : List (String × RE) :=
  [ ("ISO639-1", rSeq [.wb, rOrS ["en", "fr", "es", "de", "it", "da", "nl", "ja", "is",
      "zh", "ru", "pl", "vi", "sv", "no", "nb", "fi", "tr", "pt", "el", "ko", "hu",
      "he", "lt", "cs", "ar", "hi", "bg", "ml", "uk", "sk", "th", "ro", "lv", "fa",
      "ca", "hr", "sr", "bs", "et", "ta", "id", "mk", "sl", "az", "uz", "ms", "ur", "rm"], .wb]),
    ("ISO639-2", rSeq [.wb, rOrS ["eng", "fra", "spa", "deu", "ita", "dan", "nld",
      "jpn", "isl", "zho", "rus", "pol", "vie", "swe", "nor", "nob", "fin", "tur",
      "por", "ell", "kor", "hun", "heb", "lit", "ces", "ara", "hin", "bul", "mal",
      "ukr", "slk", "tha", "ron", "lav", "fas", "cat", "hrv", "srp", "bos", "est",
      "tam", "tel", "kan", "ind", "mkd", "slv", "aze", "uzb", "msa", "urd", "roh"], .wb]),
    ("LanguageNames", rSeq [.wb, rOrS ["english", "french", "spanish", "german",
      "italian", "danish", "dutch", "japanese", "icelandic", "chinese", "russian",
      "polish", "vietnamese", "swedish", "norwegian", "finnish", "turkish",
      "portuguese", "greek", "korean", "hungarian", "hebrew", "lithuanian", "czech",
      "arabic", "hindi", "bulgarian", "malayalam", "ukrainian", "slovak", "thai",
      "romanian", "latvian", "persian", "catalan", "croatian", "serbian", "bosnian",
      "estonian", "tamil", "telugu", "kannada", "indonesian", "macedonian",
      "slovenian", "azerbaijani", "uzbek", "malay", "urdu", "romansh"], .wb]),
    ("LanguageVariants", rSeq [.wb, rOr [rS "flemish", rS "brazilian", rS "latino",
      rSeq [rS "portuguese", rCls "-_. ", rS "br"],
      rSeq [rS "spanish", rCls "-_. ", rS "la"],
      rSeq [rS "spanish", rCls "-_. ", rS "latino"]], .wb]),
    ("LanguageTags", rSeq [.wb, .la true (rOrS ["TGx", "YTS", "RARBG"]),
      rOrS ["VOSTFR", "SUB", "ESub", "MSUBS", "DUAL", "Multi", "MULTI", "DUBBED",
        "DUB", "TrueFrench", "VF", "VFF", "VFI", "VFQ", "VOST", "VO", "OV", "OMU",
        "SoftSubs", "HardSubs", "Subtitled"], .wb]),
    ("MultiLanguage", rSeq [.wb, rOr [rS "DL", rS "ML",
      rSeq [rS "DUAL", rCls "-_. ", rS "AUDIO"],
      rSeq [rS "MULTI", rCls "-_. ", rS "AUDIO"]], .wb]),
    ("AudioTracks", rSeq [.wb, rOr [rSx "2.0", rSx "5.1", rSx "7.1",
      rSeq [rS "DTS", rOpt (rCls "-_. "), chI 'X'], rS "Atmos", rSx "DD5.1",
      rS "AC3", rSx "DDP5.1", rSx "AAC5.1"], .wb]) ]

/-- `TorrentParser._is_valid_language`. -/
def isValidLanguage (text : Str) : Bool :=
  let tl := lowS text
  let invalidTerms := ["webrip", "web-dl", "webdl", "hdtv", "bluray", "blu-ray",
    "remux", "5.1", "7.1", "2.0", "dts", "atmos", "ddp", "aac", "ac3", "x264",
    "x265", "hevc", "avc", "1080p", "720p", "2160p", "4k", "repack", "proper",
    "final", "extended", "director", "cut", "theatrical", "unrated", "uncut",
    "limited", "dl", "ml", "dual", "multi"]
  let releaseGroups := ["tgx", "yts", "rarbg", "evo", "tigole", "qxr", "ddr", "cm",
    "tbs", "ntb", "tla", "fgt", "fqm", "trollhd", "ctrlhd", "ebp", "d-z0n3",
    "decibel", "hdchina", "chd", "wiki", "ngb", "hdwing", "hds", "hdarea",
    "hdbits", "beyondhd", "blutonium", "framestor", "tayto", "galaxyrg"]
  !(invalidTerms.any (fun w => w.data == tl)) &&
  !(releaseGroups.any (fun w => w.data == tl)) &&
  text.length ≥ 2 && !isDigitsS text

/-- `TorrentParser._is_valid_language_tag`. -/
def isValidLanguageTag (tag : Str) : Bool :=
  let tl := lowS tag
  ["vostfr", "sub", "esub", "msubs", "dual", "multi", "dubbed", "dub",
   "truefrench", "vf", "vff", "vfi", "vfq", "vost", "vo", "ov", "omu",
   "softsubs", "hardsubs", "subtitled"].any (fun w => w.data == tl)

/-- `\b(?:DL|ML|DUAL|MULTI)\b` — the multi-language pre-check. -/
def reMultiLang : RE := rSeq [.wb, rOrS ["DL", "ML", "DUAL", "MULTI"], .wb]

/-- `TorrentParser.parse_language`. -/
def parseLanguage (t : Str) : Option Str :=
  let nt := normalizeTitle t
  let multi : List Str := if rtest reMultiLang nt then ["Multi".data] else []
  let found := languagePatterns.foldl
    (fun acc e =>
      if e.1 == "ISO639-1" || e.1 == "ISO639-2" || e.1 == "LanguageNames" ||
         e.1 == "LanguageVariants" then
        acc ++ (finditer e.2 nt).filterMap
          (fun m => if isValidLanguage (mtext nt m) then some (mtext nt m) else none)
      else if e.1 == "LanguageTags" then
        acc ++ (finditer e.2 nt).filterMap
          (fun m => if isValidLanguageTag (mtext nt m) then some (mtext nt m) else none)
      else acc)
    multi
  if found.isEmpty then none
  else some (joinSep ", ".data (sortAsc (dedupFirst found)))

/-! ## Quality extraction (`TorrentParser.parse_quality`) -/

/-- The quality registry (`_compile_quality_patterns`). -/
def qualityPatterns : List (String × RE) :=
  [ ("WEB-DL", rSeq [.wb, rS "WEB", rOpt (rCls "-_. "), rS "DL", .wb]),
    ("WEBRip", rSeq [.wb, rS "WEB", rOpt (rCls "-_. "), rS "Rip", .wb]),
    ("HDTV", rWord "HDTV"),
    ("BluRay", rSeq [.wb, rS "Blu", rOpt (rCls "-_. "), rS "Ray", .wb]),
    ("BD-Rip", rSeq [.wb, rS "BD", rOpt (rCls "-_. "), rS "Rip", .wb]),
    ("DVD-Rip", rSeq [.wb, rS "DVD", rOpt (rCls "-_. "), rS "Rip", .wb]),
    ("HD-Rip", rSeq [.wb, rS "HD", rCls "-_. ", rS "Rip", .wb]),
    ("Telecine", rWord "Telecine"),
    ("HDTS", rWord "HDTS"),
    ("TS", rWord "TS"),
    ("TC", rWord "TC"),
    ("CAM", rWord "CAM"),
    ("R5", rWord "R5"),
    ("SCR", rWord "SCR"),
    ("DVD", rWord "DVD"),
    ("VHS", rWord "VHS"),
    ("PDTV", rWord "PDTV"),
    ("DSR", rWord "DSR"),
    ("TVRip", rSeq [.wb, rS "TV", rCls "-_. ", rS "Rip", .wb]),
    ("SATRip", rSeq [.wb, rS "SAT", rCls "-_. ", rS "Rip", .wb]),
    ("DVDR", rWord "DVDR"),
    ("MD", rWord "MD"),
    ("Remux", rWord "Remux"),
    ("RawHD", rSeq [.wb, rS "Raw", rOpt (rCls "-_. "), rS "HD", .wb]),
    ("Proper", rWord "Proper"),
    ("Repack", rWord "Repack"),
    ("Real", rWord "Real"),
    ("Final", rWord "Final"),
    ("Director's Cut", rSeq [.wb, rS "Director", rCls "\x27’", chI 's', rPlus rWS, rS "Cut", .wb]),
    ("Extended", rWord "Extended"),
    ("Uncut", rWord "Uncut"),
    ("Unrated", rWord "Unrated"),
    ("Theatrical", rWord "Theatrical"),
    ("Ultimate", rWord "Ultimate"),
    ("Collector's Edition", rSeq [.wb, rS "Collector", rCls "\x27’", chI 's', rPlus rWS, rS "Edition", .wb]),
    ("Special Edition", rSeq [.wb, rS "Special", rPlus rWS, rS "Edition", .wb]),
    ("Limited", rWord "Limited"),
    ("IMAX", rWord "IMAX"),
    ("3D", rWord "3D"),
    ("4K Remaster", rSeq [.wb, rS "4K", rPlus rWS, rS "Remaster", .wb]),
    ("Remastered", rWord "Remastered"),
    ("Restored", rWord "Restored"),
    ("Criterion", rWord "Criterion"),
    ("Criterion Collection", rSeq [.wb, rS "Criterion", rPlus rWS, rS "Collection", .wb]),
    ("Anniversary Edition", rSeq [.wb, rS "Anniversary", rPlus rWS, rS "Edition", .wb]),
    ("Version", rSeq [.wb, chI 'v', .grp 1 rDp, .wb]) ]

/-- The inline `modifier_patterns` list of `parse_quality`, in source
order. -/
def qualityModifierPatterns : List RE :=
  [ rWord "Proper", rWord "Repack", rWord "Real", rWord "Final",
    rWord "Extended", rWord "Uncut", rWord "Unrated", rWord "Remastered",
    rWord "Restored",
    rSeq [.wb, rS "Director", chE '\x27', chI 's', rS " Cut", .wb],
    rSeq [.wb, rS "Special Edition", .wb],
    rSeq [.wb, rS "Collector", chE '\x27', chI 's', rS " Edition", .wb],
    rSeq [.wb, rS "Anniversary Edition", .wb],
    rWord "Limited", rWord "IMAX", rWord "3D",
    rSeq [.wb, rS "4K Remaster", .wb],
    rWord "Criterion",
    rSeq [.wb, rS "Criterion Collection", .wb],
    rWord "Ultimate", rWord "Theatrical" ]

/-- `\bv(\d+)\b` — version modifier. -/
def reVersion : RE := rSeq [.wb, chI 'v', .grp 1 rDp, .wb]

/-- `TorrentParser.parse_quality`. -/
def parseQuality (t : Str) : Option Str :=
  let nt := normalizeTitle t
  let modifiers := qualityModifierPatterns.filterMap
    (fun re => (rsearch re nt).map (fun m => mtext nt m))
  let modifiers := modifiers ++
    ((rsearch reVersion nt).map (fun m => ["v".data ++ mgrpD nt m 1])).getD []
  let qualities := qualityPatterns.filterMap
    (fun e => if rtest e.2 nt then some e.1.data else none)
  let all := qualities ++ modifiers
  if all.isEmpty then none else some (joinSep ", ".data all)

/-! ## Year extraction (`TorrentParser.parse_year`) -/

/-- `\b((19|20)\d{2})-((19|20)\d{2})\b` (groups 1 and 3 are used). -/
def reYearRange : RE :=
  rSeq [.wb, .grp 1 (rSeq [.grp 2 centRe, rDn 2]), chE '-',
        .grp 3 (rSeq [.grp 4 centRe, rDn 2]), .wb]

/-- The year registry (`_compile_year_patterns`). -/
def yearPatterns : List (String × RE) :=
  [ ("(####)", rSeq [chE '(', .grp 1 (rDn 4), chE ')']),
    ("####", rSeq [.wb, .grp 1 (rDn 4), .wb]),
    ("'##", rSeq [chE '\x27', .grp 1 (rDn 2), .wb]),
    ("####-####", rSeq [.wb, .grp 1 (rDn 4), chE '-', .grp 2 (rDn 4), .wb]),
    ("(####-####)", rSeq [chE '(', .grp 1 (rDn 4), chE '-', .grp 2 (rDn 4), chE ')']) ]

/-- `TorrentParser.parse_year` (branches that fail their range check fall
through to the next registry entry, as in the source; the `(####-####)`
label has no rendering branch at all). -/
def parseYear (t : Str) : Option Str :=
  let nt := normalizeTitle t
  let rangeHit :=
    match rsearch reYearRange nt with
    | some m =>
      let sy := mgrpD nt m 1
      let ey := mgrpD nt m 3
      if 1900 ≤ toNatS sy && toNatS sy ≤ currentYearPlus1 &&
         1900 ≤ toNatS ey && toNatS ey ≤ currentYearPlus1 then
        some (sy ++ "-".data ++ ey)
      else none
    | none => none
  match rangeHit with
  | some r => some r
  | none =>
    firstHit yearPatterns nt (fun name m =>
      if name == "(####)" then some (mgrpD nt m 1)
      else if name == "####" then
        let y := mgrpD nt m 1
        if 1900 ≤ toNatS y && toNatS y ≤ currentYearPlus1 then some y else none
      else if name == "'##" then
        let y := mgrpD nt m 1
        some ((if toNatS y < 50 then "20".data else "19".data) ++ y)
      else if name == "####-####" then
        let sy := mgrpD nt m 1
        let ey := mgrpD nt m 2
        if 1900 ≤ toNatS sy && toNatS sy ≤ currentYearPlus1 &&
           1900 ≤ toNatS ey && toNatS ey ≤ currentYearPlus1 then
          some (sy ++ "-".data ++ ey)
        else none
      else none)

/-! ## Website extraction (`TorrentParser.parse_website`) -/

/-- `[a-z0-9.-]` with IGNORECASE. -/
def isDomC (c : Char) : Bool := isAlphaC c || isDigitC c || c == '.' || c == '-'

/-- The TLD alternation of the `WebsitePrefix` pattern (`ws` before
`info`). -/
def tldsA : RE := rOrS ["com", "org", "net", "ws", "info", "biz", "tv", "cc",
  "io", "me", "us", "uk", "de", "fr", "fi", "es", "it", "ru", "ca", "au", "nz",
  "jp", "cn", "in", "br", "mx", "lv", "pro", "xyz", "site", "online", "tech",
  "club", "fun", "store", "shop", "blog", "app", "dev", "edu", "gov", "mil"]

/-- The TLD alternation of the other website patterns (`info` before
`ws`). -/
def tldsB : RE := rOrS ["com", "org", "net", "info", "ws", "biz", "tv", "cc",
  "io", "me", "us", "uk", "de", "fr", "fi", "es", "it", "ru", "ca", "au", "nz",
  "jp", "cn", "in", "br", "mx", "lv", "pro", "xyz", "site", "online", "tech",
  "club", "fun", "store", "shop", "blog", "app", "dev", "edu", "gov", "mil"]

/-- `[a-z0-9-]{2,}\.` — the domain stem. -/
def domStem : RE := rSeq [rRepMin (.cls isAlnumDash) 2, chE '.']

/-- The website registry (`_compile_website_patterns`). -/
def websitePatterns : List (String × RE) :=
  [ ("WebsitePrefix", rSeq [.bos, rOpt (rSeq [rS "www", chE '.']),
      .grp 1 (rSeq [domStem, tldsA, rStar (.cls isDomC)])]),
    ("(WEBSITE)", rSeq [chE '(', rOpt (rSeq [rS "www", chE '.']),
      .grp 1 (rSeq [domStem, tldsB, rStar (.cls isDomC)]), chE ')']),
    ("[WEBSITE]", rSeq [chE '[', rOpt (rSeq [rS "www", chE '.']),
      .grp 1 (rSeq [domStem, tldsB, rStar (.cls isDomC)]), chE ']']),
    ("WebsiteAnywhere", rSeq [.wb, rOpt (rSeq [rS "www", chE '.']),
      .grp 1 (rSeq [domStem, tldsB,
                    rOpt (rSeq [chE '/', rStar (.cls (fun c => !isSpaceC c))]), .wb])]),
    ("KnownSites", rSeq [.wb, rOr [rS "TamilRockers", rS "kinokopilka",
      rS "YTS.MX", rS "RARBG", rS "ETRG", rS "EVO", rS "Tigole", rS "QxR",
      rS "DDR", rS "CM", rS "TBS", rS "NTb", rS "TLA", rS "FGT", rS "FQM",
      rS "TrollHD", rS "CtrlHD", rS "EbP", rS "D-Z0N3", rS "decibeL",
      rS "HDChina", rS "CHD", rS "WiKi", rS "NGB", rS "HDWinG", rS "HDS",
      rS "HDArea", rS "HDBits", rS "BeyondHD", rS "BLUTONIUM", rS "FraMeSToR",
      rS "TayTO", rS "TGx", rS "NZBGeek"], .wb]) ]

/-- `TorrentParser._is_false_positive_website`. -/
def isFalsePositiveWebsite (w : Str) : Bool :=
  let wl := lowS w
  let parts := splitOnC '.' wl
  let falsePos := ["season", "episode", "episodes", "complete", "full", "part",
    "webrip", "web-dl", "hdtv", "bluray", "blu-ray", "remux", "720p", "1080p",
    "2160p", "4k", "repack", "proper", "final", "extended", "director", "cut",
    "theatrical", "unrated", "uncut", "combined", "surround", "stereo", "dolby",
    "multi", "dual"]
  if parts.any (fun p => falsePos.any (fun f => f.data == p)) then true
  else if [".mkv", ".mp4", ".avi", ".m4v", ".mpg", ".mpeg", ".srt", ".sub"].any
            (fun e => containsSub wl e.data) then true
  else if wl.length < 6 then true
  else if parts.length > 1 && (parts.dropLast.any (fun p => p.length < 3)) then true
  else false

/-- `TorrentParser.parse_website` — runs on the raw title, not the
normalized one. -/
def parseWebsite (t : Str) : Option Str :=
  let hits := websitePatterns.foldl
    (fun acc e =>
      acc ++ (finditer e.2 t).map
        (fun m => if e.1 == "KnownSites" then mtext t m else mgrpD t m 1))
    []
  let sites := hits.foldl
    (fun (acc : List Str) w =>
      if !w.isEmpty && !acc.contains w && !isFalsePositiveWebsite w then acc ++ [w]
      else acc)
    []
  if sites.isEmpty then none else some (joinSep ", ".data sites)

/-! ## Encoder and release-group extraction -/

/-- `(?=\.[a-z]{2,4}$|$)` — "followed by a file extension or the end". -/
def extOrEnd : RE :=
  .la false (.alt (rSeq [chE '.', rRepR (.cls isAlphaC) 2 4, .eos]) .eos)

/-- The encoder registry (`_compile_encoder_patterns`); every pattern's
capture group 1 is the encoder. -/
def encoderPatterns : List (String × RE) :=
  [ ("-ENCODER", rSeq [chE '-', .grp 1 (rRepMin (.cls isAlphaC) 2), extOrEnd]),
    ("[ENCODER]", rSeq [chE '[',
      .la true (rOr [rSeq [rDp, chI 'p'], rDn 4, rS "WEBRip", rS "WEB-DL", rS "HDTV", rS "BluRay"]),
      .grp 1 (rRepMin (.cls isAlnumC) 2), chE ']']),
    ("(ENCODER)", rSeq [chE '(',
      .la true (rOr [rSeq [rDp, chI 'p'], rDn 4, rS "WEBRip", rS "WEB-DL", rS "HDTV", rS "BluRay"]),
      .grp 1 (rRepMin (.cls isAlnumC) 2), chE ')']) ]

/-- `TorrentParser.parse_encoder`. -/
def parseEncoder (t : Str) : Option Str :=
  let nt := normalizeTitle t
  firstHit encoderPatterns nt (fun _ m => some (mgrpD nt m 1))

/-- `(?![0-9]+$)` — reject pure-numeric captures. -/
def notAllDigits : RE := .la true (rSeq [rPlus rD, .eos])

/-- The non-anime group patterns (`_compile_group_patterns`), in source
order.  `ExceptionGroup` has no capture group; the others capture the group
name in group 1. -/
def groupPatterns : List (String × RE) :=
  [ ("-GROUP", rSeq [chE '-', .grp 1 (rSeq [notAllDigits, rRepMin (.cls isAlnumC) 2]), extOrEnd]),
    ("[GROUP]", rSeq [chE '[', .grp 1 (rSeq [notAllDigits, rRepMin (.cls isAlnumC) 2]), chE ']', extOrEnd]),
    ("(GROUP)", rSeq [chE '(', .grp 1 (rSeq [notAllDigits, rRepMin (.cls isAlnumC) 2]), chE ')', extOrEnd]),
    ("ExceptionGroup", rSeq [.wb, rOr [rS "D-Z0N3", rS "Fight-BB", rS "VARYG",
      rS "E.N.D", rS "KRaLiMaRKo", rS "BluDragon", rS "DarQ", rS "KCRT",
      rSeq [rS "BEN", rCls "_. ", rS "THE", rCls "_. ", rS "MEN"],
      rS "TAoE", rS "QxR", rS "Joy", rS "ImE", rS "UTR", rS "t3nzin",
      rS "Anime Time", rS "Project Angel", rS "Hakata Ramen", rS "HONE",
      rS "Vyndros", rS "SEV", rS "Garshasp", rS "Kappa", rS "Natty",
      rS "RCVR", rS "SAMPA", rS "YOGI", rS "r00t", rS "EDGE2020"], .wb]) ]

/-- `^\[(?P<subgroup>[^\]]+?)\](?:_|-|\s|\.)` — the anime subgroup pattern
(checked first, with `re.match`). -/
def animeSubgroupRe : RE :=
  rSeq [.bos, chE '[', .grp 1 (rPlusL (rClsN "]")), chE ']',
        rOr [chE '_', chE '-', rWS, chE '.']]

/-- `TorrentParser.parse_group`. -/
def parseGroup (t : Str) : Option Str :=
  let nt := normalizeTitle t
  match rmatch0 animeSubgroupRe nt with
  | some m => some (mgrpD nt m 1)
  | none =>
    firstHit groupPatterns nt (fun name m =>
      if name == "ExceptionGroup" then some (mtext nt m) else some (mgrpD nt m 1))

/-! ## Anime info (`TorrentParser.parse_anime_info`) -/

/-- Exact (case-sensitive) literal for a character list. -/
def rSxl (s : Str) : RE := rSeq (s.map chE)

/-- `\bS(\d+)\b` with IGNORECASE. -/
def reSeasonNumWB : RE := rSeq [.wb, chI 'S', .grp 1 rDp, .wb]

/-- `__PRESERVED_(\d+)_\d+__` (case-sensitive). -/
def rePreservedNum : RE :=
  rSeq [rSx "__PRESERVED_", .grp 1 rDp, chE '_', rDp, rSx "__"]

/-- `(?:[Hx]\.?|HEVC|AVC|AV1|h)` — codec prefixes. -/
def codecPrefixRe : RE :=
  rOr [rSeq [.cls (fun c => lowC c == 'h' || lowC c == 'x'), rOpt (chE '.')],
       rS "HEVC", rS "AVC", rS "AV1", chI 'h']

/-- `(?:[Hx]\.?|HEVC|AVC|AV1|h)(\d{2,3})\b`. -/
def reCodecNumbers : RE := rSeq [codecPrefixRe, .grp 1 (rRepR rD 2 3), .wb]

/-- The numeric exclusions of `parse_anime_info` (years again via the
century-only capture, no audio codecs, plus season numbers and placeholder
indices). -/
def animeExcludeNumbers (nt : Str) : List Str :=
  let years := (finditer reYearsSloppy nt).map (fun m => mgrpD nt m 1)
  let res := (finditer reResolutionsEx nt).map (fun m => mgrpD nt m 1)
  let sizes := (finditer reFileSizeEx nt).map (fun m => mtext nt m)
  let vcodecs := (finditer reVideoCodecsEx nt).map (fun m => mgrpD nt m 1)
  let seasonNums := (finditer reSeasonNumWB nt).map (fun m => mgrpD nt m 1)
  let preserved := (finditer rePreservedNum nt).map (fun m => mgrpD nt m 1)
  let codecNums := (finditer reCodecNumbers nt).map (fun m => mgrpD nt m 1)
  years ++ res ++ seasonNums ++ preserved ++
  sizes.filterMap (fun sz => (rsearch reFirstNum sz).map (fun m => mgrpD sz m 1)) ++
  vcodecs.filterMap (fun cd => (rsearch reFirstDigits cd).map (fun m => mgrpD cd m 1)) ++
  codecNums

/-- The absolute-episode patterns of `parse_anime_info` that compile:
the second source pattern (`(?<![Hx]\.?)\[...`) uses a variable-width
lookbehind, which CPython rejects with `re.error`, so at run time the
source's `try/except` skips it entirely and only these three scan. -/
def animeAbsolutePatterns : List RE :=
  [ rSeq [.lb1 true isDigitC, .grp 1 (rRepR rD 2 4),
          .la true (rOr [.cls isAlnumC, chI 'p', chI 'i',
                         rSeq [chI 'x', rD], rSeq [chE '.', rD]])],
    rSeq [rOrS ["episode", "ep", "abs", "absolute"], rPlusL (rCls "-_. "),
          .grp 1 (rRepR rD 2 4)],
    rSeq [.wb, .grp 1 (rRepR rD 2 3), chI 'v', rD, .wb] ]

/-- `S{num}E|E{num}|S\d+E{num}` for a concrete number (case-sensitive). -/
def reSeasonEpisodeOf (num : Str) : RE :=
  rOr [rSeq [chE 'S', rSxl num, chE 'E'],
       rSeq [chE 'E', rSxl num],
       rSeq [chE 'S', rDp, chE 'E', rSxl num]]

/-- `(?:[Hx]\.?|HEVC|AVC|AV1|h){num}\b` for a concrete number. -/
def reCodecOf (num : Str) : RE := rSeq [codecPrefixRe, rSxl num, .wb]

/-- `\b(?:ova|ovd|oav|special|bonus|extra)\b`. -/
def reAnimeSpecial : RE :=
  rSeq [.wb, rOrS ["ova", "ovd", "oav", "special", "bonus", "extra"], .wb]

/-- `\b\d{2,4}\s*[-~]\s*\d{2,4}\b`. -/
def reAnimeBatch : RE :=
  rSeq [.wb, rRepR rD 2 4, rStar rWS, rCls "-~", rStar rWS, rRepR rD 2 4, .wb]

/-- The `anime_info` dictionary. -/
structure AnimeInfo where
  absoluteEpisodes : List Str
  special : Bool
  batch : Bool
  deriving Repr, DecidableEq

/-- `TorrentParser.parse_anime_info`. -/
def parseAnimeInfo (t : Str) : Option AnimeInfo :=
  let nt := normalizeTitle t
  let excl := animeExcludeNumbers nt
  let absRaw := animeAbsolutePatterns.foldl
    (fun acc re =>
      acc ++ (finditer re nt).filterMap (fun m =>
        let n := mgrpD nt m 1
        if excl.contains n then none
        else if rtest (reSeasonEpisodeOf n) nt then none
        else if rtest (reCodecOf n) nt then none
        else if 1 ≤ toNatS n && toNatS n ≤ 2000 then some n
        else none))
    []
  let absolutes := dedupFirst absRaw
  let special := rtest reAnimeSpecial nt
  let batch := rtest reAnimeBatch nt
  if absolutes.isEmpty && !special && !batch then none
  else some ⟨absolutes, special, batch⟩

/-! ## The orchestrator (`TorrentParser.parse`) -/

/-- A field value of the result record. -/
inductive Val : Type where
  | s (v : Str) : Val
  | anime (a : AnimeInfo) : Val
  deriving Repr, DecidableEq

/-- Drop the fields whose value is `None` (the record keeps insertion
order, like a Python dict). -/
def assemble (l : List (String × Option Val)) : List (String × Val) :=
  l.filterMap (fun kv => kv.2.map (fun v => (kv.1, v)))

/-- The error record returned for invalid titles. -/
def errorRecord : List (String × Val) :=
  [("error", .s "Invalid title (likely hashed release)".data)]

/-- The full field list of `parse`, before `None` filtering. -/
def parseFields (t : Str) : List (String × Option Val) :=
  let nt := normalizeTitle t
  let ct := detectContentType t nt
  [("original_title", some (.s t)),
   ("normalized_title", some (.s nt)),
   ("content_type", some (.s ct)),
   ("season", (parseSeason t).map .s),
   ("episode", (parseEpisode t).map .s),
   ("resolution", (parseResolution t).map .s),
   ("video_codec", (parseVideoCodec t).map .s),
   ("audio_codec", (parseAudioCodec t).map .s),
   ("language", (parseLanguage t).map .s),
   ("filesize", (parseFilesize t).map .s),
   ("filetype", (parseFiletype t).map .s),
   ("quality", (parseQuality t).map .s),
   ("year", (parseYear t).map .s),
   ("website", (parseWebsite t).map .s),
   ("encoder", (parseEncoder t).map .s),
   ("group", (parseGroup t).map .s),
   ("anime_info", (parseAnimeInfo t).map .anime)]

/-- `TorrentParser.parse`: reject invalid titles with the error record;
otherwise assemble the fields, dropping season/episode for movies and then
dropping `None` values. -/
def parse (t : Str) : List (String × Val) :=
  if !isValidTitle t then errorRecord
  else
    let fields := parseFields t
    let fields :=
      if detectContentType t (normalizeTitle t) == "movie".data then
        fields.filter (fun kv => kv.1 ≠ "season" && kv.1 ≠ "episode")
      else fields
    assemble fields

/-- `TorrentParser.parse_batch`. -/
def parseBatch (ts : List Str) : List (List (String × Val)) := ts.map parse

/-! ## Result post-processing (`_process_season_episode_field`) -/

/-- Split a comma-joined candidate string and strip each piece. -/
def splitStrip (s : Str) : List Str := (splitOnC ',' s).map stripWS

/-- Parse `E<a>-E<b>` and return its span `b - a` (as an integer), if the
value has exactly one dash and both sides are `E`-prefixed numbers. -/
def rangeSpan (v : Str) : Option Int :=
  let parts := splitOnC '-' v
  match parts with
  | [p1, p2] =>
    if startsWithS p1 "E".data && startsWithS p2 "E".data &&
       isDigitsS (p1.drop 1) && isDigitsS (p2.drop 1) then
      some ((toNatS (p2.drop 1) : Int) - (toNatS (p1.drop 1) : Int))
    else none
  | _ => none

/-- The widest-span scan of `_process_season_episode_field`: fold over the
distinct ranges keeping the first strictly-larger span (`max_span` starts
at `-1`). -/
def bestRangeScan (ranges : List Str) : Option Str × Int :=
  ranges.foldl
    (fun (st : Option Str × Int) v =>
      match rangeSpan v with
      | some sp => if sp > st.2 then (some v, sp) else st
      | none => st)
    (none, -1)

/-- Python `max(xs, key=f)` — the first element with the maximal key. -/
def pyMaxBy (f : Str → Nat) (xs : List Str) : Option Str :=
  xs.foldl
    (fun (best : Option Str) v =>
      match best with
      | none => some v
      | some b => if f v > f b then some v else best)
    none

/-- `_process_season_episode_field` (module level).  Python's `set(...)`
iteration is determinised to first-occurrence order. -/
def processSeasonEpisodeField (s : Str) : Option Str :=
  if s.isEmpty then none
  else
    let values := splitStrip s
    match values with
    | [v] => some v
    | _ =>
      let counts := fun v => countOcc values v
      let ranges := values.filter (fun v => v.contains '-')
      let singles := values.filter (fun v => !v.contains '-')
      if !ranges.isEmpty then
        let best := bestRangeScan (dedupFirst ranges)
        match best.1 with
        | some r => if best.2 > 0 then some r else pyMaxBy counts (dedupFirst ranges)
        | none => pyMaxBy counts (dedupFirst ranges)
      else if !singles.isEmpty then pyMaxBy counts (dedupFirst singles)
      else none

/-! ## Specification-side definitions

These render the specification's wording (for comparison against the
embedded functions) and the invariants stated by the claims. -/

/-- Largest `E<a>-E<b>` span among the candidates (`-1` when none parses),
following the specification's "widest-span range" notion. -/
def maxSpanSpec (rs : List Str) : Int :=
  (rs.filterMap rangeSpan).foldl max (-1)

/-- The first candidate (in first-appearance order) achieving the largest
span — the specification's "widest-span range, ties broken by
first-seen". -/
def widestRangeSpec (rs : List Str) : Option Str :=
  rs.find? (fun v => rangeSpan v == some (maxSpanSpec rs))

/-- Largest occurrence count over `xs` of the candidates in `xs`. -/
def maxCountSpec (f : Str → Nat) (xs : List Str) : Nat :=
  (xs.map f).foldl max 0

/-- The first candidate with the maximal occurrence count — the
specification's "most frequent, ties broken by first occurrence". -/
def mostFrequentSpec (all : List Str) (xs : List Str) : Option Str :=
  xs.find? (fun v => countOcc all v == maxCountSpec (countOcc all) xs)

/-- The claim's "most frequent literal string" over all candidates of a
comma-joined field (used to compare against the zero-span fallback, which
the code restricts to the range candidates). -/
def mostFrequentLiteralSpec (s : Str) : Option Str :=
  let values := splitStrip s
  mostFrequentSpec values (dedupFirst values)

/-- `fold1Max f b xs` — Python's `max` over `b :: xs` keyed by `f`,
keeping the first maximum. -/
def fold1Max (f : Str → Nat) (b : Str) (xs : List Str) : Str :=
  xs.foldl (fun b v => if f v > f b then v else b) b

/-- Association-list lookup on a result record (`record.get(key)`). -/
def lookupVal (k : String) (l : List (String × Val)) : Option Val :=
  (l.find? (fun kv => kv.1 == k)).map (fun kv => kv.2)

/-- The shape invariant of one annotated episode emission: candidates from
the episode-count branch are `E1-E<n>` with `1 ≤ n ≤ 200`; explicit-range
candidates are `E<a>-E<b>` with both numbers in `1..200`; single-capture
candidates are `E<a>` with `a ≤ 200`; two/three-group fallback ranges have
both numbers `≤ 200`; absolute-episode renderings `Abs<a>` have `a ≤ 2000`.
Emissions of the X-of-Y branch (and the split/part/date/phrase forms) are
not numerically capped. -/
def emOK (e : EpSrc × Str) : Prop :=
  (e.1 = .count → ∃ n, 1 ≤ n ∧ n ≤ 200 ∧ e.2 = "E1-E".data ++ natToS n) ∧
  (e.1 = .range → ∃ a b, isDigitsS a = true ∧ isDigitsS b = true ∧
     1 ≤ toNatS a ∧ toNatS a ≤ 200 ∧ 1 ≤ toNatS b ∧ toNatS b ≤ 200 ∧
     e.2 = "E".data ++ zfill 2 a ++ "-E".data ++ zfill 2 b) ∧
  (e.1 = .one → ∃ a, isDigitsS a = true ∧ toNatS a ≤ 200 ∧
     e.2 = "E".data ++ zfill 2 a) ∧
  (e.1 = .two ∨ e.1 = .three → ∃ a b, isDigitsS a = true ∧ isDigitsS b = true ∧
     toNatS a ≤ 200 ∧ toNatS b ≤ 200 ∧
     e.2 = "E".data ++ zfill 2 a ++ "-E".data ++ zfill 2 b) ∧
  (e.1 = .absEp → ∃ a, isDigitsS a = true ∧ toNatS a ≤ 2000 ∧
     e.2 = "Abs".data ++ zfill 3 a)

/-- The potential-match dict respects the emission invariant. -/
def potOK (pm : EpPot) : Prop := ∀ kv ∈ pm, emOK (kv.2.src, kv.1)

/-- Both components of the scanning accumulator respect the invariant. -/
def accOK (acc : EpAcc) : Prop := (∀ e ∈ acc.1, emOK e) ∧ potOK acc.2

set_option maxRecDepth 2000000

set_option maxHeartbeats 400000000

/-! ## Theorems -/

/-- C3.  The code fails the claim: in `"Show 2010 S2010"` the 4-digit
substring `2010` is classified as the year, yet the very same literal is
captured as a season number (`parse_season` returns `"S2010, S201"`),
because `parse_season`'s year harvest `\b(19|20)\d{2}\b` captures only the
century prefix (`"20"`), so the full year never enters the exclusion set —
contradicting the intent recorded in the surrounding code and matched by
`parse_episode`'s correct `\b(19\d{2}|20\d{2})\b` variant. -/
theorem C3_year_reappears_in_season :
    parseYear "Show 2010 S2010".data = some "2010".data ∧
    parseSeason "Show 2010 S2010".data = some "S2010, S201".data ∧
    containsSub "S2010, S201".data "2010".data = true := by
  refine ⟨by decide, by decide, by decide⟩

/-- C6.  The code fails the claim: on `"S01 x S02"` both keys have equal
priority 30 and the sort `sorted(..., key=(priority, start), reverse=True)`
orders equal-priority keys by start offset *descending* (the later match
first), so the result is `"S02, S01"`, not the `"S01, S02"` that the claim
(and the code's own comment "then by position (earlier first)") require. -/
theorem C6_sort_position_descending :
    parseSeason "S01 x S02".data = some "S02, S01".data ∧
    some "S02, S01".data ≠ some "S01, S02".data := by
  refine ⟨by decide, by decide⟩

/-- C8.  The code fails the claim: in `"[5.1 x264]"` the substrings `5.1`
and `x264` are matched by preserve rules and replaced by placeholders, the
bracket preserve rule then swallows both placeholders into a third one, and
the single-pass restoration re-inserts the inner placeholders literally —
the preserved substrings do not reappear in the normalized title at all. -/
theorem C8_placeholder_not_restored :
    normalizeTitle "[5.1 x264]".data = "[__PRESERVED_1_0__ __PRESERVED_27_1__]".data ∧
    containsSub (normalizeTitle "[5.1 x264]".data) "5.1".data = false ∧
    containsSub (normalizeTitle "[5.1 x264]".data) "x264".data = false ∧
    rtest ((preservedPatterns.get? 1).getD .eps) (preProcessTitle "[5.1 x264]".data) = true := by
  refine ⟨by decide, by decide, by decide, by decide⟩

/-- C2 (counterexample).  On the candidates `E01-E01, E03, E03` every range
has zero span, and the code falls back to the most frequent *range*
(`E01-E01`), not the most frequent literal string of the claim (`E03`,
which occurs twice). -/
theorem C2_counterexample :
    processSeasonEpisodeField "E01-E01, E03, E03".data = some "E01-E01".data ∧
    mostFrequentLiteralSpec "E01-E01, E03, E03".data = some "E03".data ∧
    some "E01-E01".data ≠ some "E03".data := by
  refine ⟨by decide, by decide, by decide⟩

/-- C4 (counterexample).  A special-episode indicator does not
short-circuit scanning: `parse_episode("OVA 05")` returns
`"Special, E05"`, with a numeric candidate alongside the `"Special"`
marker, not exactly `"Special"`. -/
theorem C4_counterexample :
    parseEpisode "OVA 05".data = some "Special, E05".data ∧
    some "Special, E05".data ≠ some "Special".data := by
  refine ⟨by decide, by decide⟩

/-- C9 (counterexample).  On `"The Film Season 2"` exactly one movie
indicator and one series indicator match — a tie, which the claim's vote
resolves to `"series"` — yet the code returns `"movie"` because any movie
indicator wins outright. -/
theorem C9_counterexample :
    detectContentType "The Film Season 2".data (normalizeTitle "The Film Season 2".data) = "movie".data ∧
    contentTypeVoteSpec (normalizeTitle "The Film Season 2".data) = "series".data ∧
    movieVotes (normalizeTitle "The Film Season 2".data) = 1 ∧
    seriesVotes (normalizeTitle "The Film Season 2".data) = 1 := by
  refine ⟨by decide, by decide, by decide, by decide⟩

/-- C10 (counterexample).  The X-of-Y branch renders `E<n>` without the
200 cap: `parse_episode("500 of 600") = "E500"`. -/
theorem C10_counterexample :
    parseEpisode "500 of 600".data = some "E500".data ∧ 200 < toNatS "500".data := by
  refine ⟨by decide, by decide⟩

/-- Taking a prefix preserves `List.all`. -/
theorem all_take {p : Char → Bool} :
    ∀ (l : Str) (n : Nat), l.all p = true → (l.take n).all p = true
  | [], n, _ => by simp
  | _ :: _, 0, _ => by simp
  | c :: t, n + 1, h => by
    simp only [List.all_cons, Bool.and_eq_true] at h
    simp only [List.take_succ_cons, List.all_cons, Bool.and_eq_true]
    exact ⟨h.1, all_take t n h.2⟩

/-- `_is_valid_title` rejects a title exactly when it carries a
hashed-release signature or has no alphanumeric character. -/
theorem isValidTitle_eq (t : Str) :
    isValidTitle t = (!(hashedReleaseSignature t || !hasAlnum t)) := by
  unfold isValidTitle hashedReleaseSignature
  cases hpw : pwYenc t <;> cases hal : hasAlnum t <;>
    cases hrj : rejectHashedList.any (fun f => f (titleWithoutExt t)) <;>
      simp [hpw, hal, hrj]

/-- Keys of the assembled record come from the field list. -/
theorem mem_map_fst_assemble {k : String} :
    ∀ {l : List (String × Option Val)},
      k ∈ (assemble l).map Prod.fst → k ∈ l.map Prod.fst := by
  intro l
  induction l with
  | nil => intro h; simpa [assemble] using h
  | cons x t ih =>
    obtain ⟨k2, o⟩ := x
    cases o with
    | none =>
      intro h
      have h2 : k ∈ (assemble t).map Prod.fst := by simpa [assemble] using h
      exact List.mem_cons_of_mem _ (ih h2)
    | some v =>
      intro h
      have h2 : k = k2 ∨ k ∈ (assemble t).map Prod.fst := by
        simpa [assemble] using h
      rcases h2 with h2 | h2
      · simp [h2]
      · exact List.mem_cons_of_mem _ (ih h2)

/-- An all-alphanumeric string has no extension to strip. -/
theorem titleWithoutExt_of_alnum {s : Str} (h : s.all isAlnumC = true) :
    titleWithoutExt s = s := by
  unfold titleWithoutExt extPos
  have hall : ∀ p ∈ List.range s.length, ¬ (extMatchAt s p = true) := by
    intro p _ hp
    unfold extMatchAt at hp
    simp only [Bool.and_eq_true, beq_iff_eq] at hp
    have hdot : '.' ∈ s := by
      have := hp.1.1.1
      exact List.get?_mem this
    have := (List.all_eq_true.mp h) '.' hdot
    simp [isAlnumC, isAlphaC, isLowerC, isUpperC, isDigitC] at this
  rw [List.find?_eq_none.mpr hall]

/-- C1.  The invalid-title guard: a title matching a hashed-release
signature (the password/yEnc check or any reject pattern after extension
stripping) or containing no alphanumeric character makes `parse` return
exactly the single-key error record `{"error": "Invalid title (likely
hashed release)"}`; any other title's record has no `"error"` key.  In
particular `parse("123")` and `parse` of any 24/30/32-character
alphanumeric string return the error marker. -/
theorem C1_invalid_title_guard (t : Str) :
    ((hashedReleaseSignature t || !hasAlnum t) = true → parse t = errorRecord) ∧
    ((hashedReleaseSignature t || !hasAlnum t) = false →
       "error" ∉ (parse t).map Prod.fst) ∧
    parse "123".data = errorRecord ∧
    (∀ s : Str, s.length = 24 ∨ s.length = 30 ∨ s.length = 32 →
       s.all isAlnumC = true → parse s = errorRecord) := by
  refine ⟨?_, ?_, by decide, ?_⟩
  · intro h
    have hv : isValidTitle t = false := by rw [isValidTitle_eq, h]; rfl
    unfold parse
    rw [hv]
    rfl
  · intro h hk
    have hv : isValidTitle t = true := by rw [isValidTitle_eq, h]; rfl
    unfold parse at hk
    rw [hv] at hk
    simp only [Bool.not_true, Bool.false_eq_true, if_false] at hk
    have h2 := mem_map_fst_assemble
      (l := if detectContentType t (normalizeTitle t) == "movie".data then
              (parseFields t).filter (fun kv => kv.1 ≠ "season" && kv.1 ≠ "episode")
            else parseFields t) hk
    have h3 : "error" ∈ (parseFields t).map Prod.fst := by
      split at h2
      · rcases List.mem_map.mp h2 with ⟨kv, hkv, hfst⟩
        exact List.mem_map.mpr ⟨kv, List.mem_of_mem_filter hkv, hfst⟩
      · exact h2
    have h4 : (parseFields t).map Prod.fst =
        ["original_title", "normalized_title", "content_type", "season",
         "episode", "resolution", "video_codec", "audio_codec", "language",
         "filesize", "filetype", "quality", "year", "website", "encoder",
         "group", "anime_info"] := rfl
    rw [h4] at h3
    revert h3
    decide
  · intro s hlen hal
    have hne : s ≠ [] := by
      intro hnil
      rcases hlen with h | h | h <;> simp [hnil] at h
    have hlen24 : 24 ≤ s.length := by
      rcases hlen with h | h | h <;> omega
    have hrej : rej14 (titleWithoutExt s) = true := by
      rw [titleWithoutExt_of_alnum hal]
      unfold rej14
      rw [Bool.and_eq_true]
      constructor
      · simpa using hlen24
      · exact all_take s 24 hal
    have hany : rejectHashedList.any (fun f => f (titleWithoutExt s)) = true := by
      rw [List.any_eq_true]
      refine ⟨rej14, ?_, hrej⟩
      unfold rejectHashedList
      simp
    have halnum : hasAlnum s = true := by
      unfold hasAlnum
      rw [List.any_eq_true]
      cases s with
      | nil => exact absurd rfl hne
      | cons c t =>
        refine ⟨c, List.mem_cons_self c t, ?_⟩
        exact (List.all_eq_true.mp hal) c (List.mem_cons_self c t)
    have hv : isValidTitle s = false := by
      unfold isValidTitle
      cases hpw : pwYenc s
      · rw [halnum, hany]; rfl
      · rfl
    unfold parse
    rw [hv]
    rfl

/-- C1 witness at a regular title. -/
theorem C1_witness :
    (hashedReleaseSignature "Breaking Bad S01".data ||
       !hasAlnum "Breaking Bad S01".data) = false ∧
    "error" ∉ (parse "Breaking Bad S01".data).map Prod.fst :=
  ⟨by decide, (C1_invalid_title_guard "Breaking Bad S01".data).2.1 (by decide)⟩

/-- C9 (amended).  Classification is movie-first, not a vote: any matching
movie indicator yields `"movie"` regardless of series indicators, and
otherwise the result is `"series"` (also on no match).  When the
classification is `"movie"` and the title is valid, the parse record has no
`"season"` or `"episode"` key and every other field is exactly the
corresponding extractor's output. -/
theorem C9_movie_priority_and_suppression (t : Str) :
    (detectContentType t (normalizeTitle t) = "movie".data ↔
       movieIndicators.any (fun re => rtest re (normalizeTitle t)) = true) ∧
    (detectContentType t (normalizeTitle t) = "movie".data ∨
       detectContentType t (normalizeTitle t) = "series".data) ∧
    (isValidTitle t = true →
     detectContentType t (normalizeTitle t) = "movie".data →
       "season" ∉ (parse t).map Prod.fst ∧
       "episode" ∉ (parse t).map Prod.fst ∧
       parse t = assemble
         [("original_title", some (.s t)),
          ("normalized_title", some (.s (normalizeTitle t))),
          ("content_type", some (.s "movie".data)),
          ("resolution", (parseResolution t).map .s),
          ("video_codec", (parseVideoCodec t).map .s),
          ("audio_codec", (parseAudioCodec t).map .s),
          ("language", (parseLanguage t).map .s),
          ("filesize", (parseFilesize t).map .s),
          ("filetype", (parseFiletype t).map .s),
          ("quality", (parseQuality t).map .s),
          ("year", (parseYear t).map .s),
          ("website", (parseWebsite t).map .s),
          ("encoder", (parseEncoder t).map .s),
          ("group", (parseGroup t).map .s),
          ("anime_info", (parseAnimeInfo t).map .anime)]) := by
  have hcases :
      detectContentType t (normalizeTitle t) =
        (if movieIndicators.any (fun re => rtest re (normalizeTitle t)) then
           "movie".data
         else "series".data) := by
    unfold detectContentType
    cases hm : movieIndicators.any (fun re => rtest re (normalizeTitle t)) <;>
      cases hs : seriesIndicators.any (fun re => rtest re (normalizeTitle t)) <;>
        simp [hm, hs]
  refine ⟨?_, ?_, ?_⟩
  · rw [hcases]
    cases hm : movieIndicators.any (fun re => rtest re (normalizeTitle t))
    · rw [if_neg (by simp [hm])]
      constructor
      · intro h
        exact absurd h (by decide)
      · intro h
        exact absurd h (by simp)
    · rw [if_pos (by simp)]
      exact ⟨fun _ => rfl, fun _ => rfl⟩
  · rw [hcases]
    cases hm : movieIndicators.any (fun re => rtest re (normalizeTitle t))
    · rw [if_neg (by simp [hm])]
      exact Or.inr rfl
    · rw [if_pos (by simp)]
      exact Or.inl rfl
  · intro hv hm
    have hrec : parse t = assemble
        [("original_title", some (.s t)),
         ("normalized_title", some (.s (normalizeTitle t))),
         ("content_type", some (.s "movie".data)),
         ("resolution", (parseResolution t).map .s),
         ("video_codec", (parseVideoCodec t).map .s),
         ("audio_codec", (parseAudioCodec t).map .s),
         ("language", (parseLanguage t).map .s),
         ("filesize", (parseFilesize t).map .s),
         ("filetype", (parseFiletype t).map .s),
         ("quality", (parseQuality t).map .s),
         ("year", (parseYear t).map .s),
         ("website", (parseWebsite t).map .s),
         ("encoder", (parseEncoder t).map .s),
         ("group", (parseGroup t).map .s),
         ("anime_info", (parseAnimeInfo t).map .anime)] := by
      simp only [parse, parseFields, hv, hm]
      rfl
    refine ⟨?_, ?_, hrec⟩
    · intro hk
      rw [hrec] at hk
      have h2 := mem_map_fst_assemble hk
      have h4 : ([("original_title", some (Val.s t)),
          ("normalized_title", some (Val.s (normalizeTitle t))),
          ("content_type", some (Val.s "movie".data)),
          ("resolution", (parseResolution t).map Val.s),
          ("video_codec", (parseVideoCodec t).map Val.s),
          ("audio_codec", (parseAudioCodec t).map Val.s),
          ("language", (parseLanguage t).map Val.s),
          ("filesize", (parseFilesize t).map Val.s),
          ("filetype", (parseFiletype t).map Val.s),
          ("quality", (parseQuality t).map Val.s),
          ("year", (parseYear t).map Val.s),
          ("website", (parseWebsite t).map Val.s),
          ("encoder", (parseEncoder t).map Val.s),
          ("group", (parseGroup t).map Val.s),
          ("anime_info", (parseAnimeInfo t).map Val.anime)]).map Prod.fst =
        ["original_title", "normalized_title", "content_type", "resolution",
         "video_codec", "audio_codec", "language", "filesize", "filetype",
         "quality", "year", "website", "encoder", "group", "anime_info"] := rfl
      rw [h4] at h2
      revert h2
      decide
    · intro hk
      rw [hrec] at hk
      have h2 := mem_map_fst_assemble hk
      have h4 : ([("original_title", some (Val.s t)),
          ("normalized_title", some (Val.s (normalizeTitle t))),
          ("content_type", some (Val.s "movie".data)),
          ("resolution", (parseResolution t).map Val.s),
          ("video_codec", (parseVideoCodec t).map Val.s),
          ("audio_codec", (parseAudioCodec t).map Val.s),
          ("language", (parseLanguage t).map Val.s),
          ("filesize", (parseFilesize t).map Val.s),
          ("filetype", (parseFiletype t).map Val.s),
          ("quality", (parseQuality t).map Val.s),
          ("year", (parseYear t).map Val.s),
          ("website", (parseWebsite t).map Val.s),
          ("encoder", (parseEncoder t).map Val.s),
          ("group", (parseGroup t).map Val.s),
          ("anime_info", (parseAnimeInfo t).map Val.anime)]).map Prod.fst =
        ["original_title", "normalized_title", "content_type", "resolution",
         "video_codec", "audio_codec", "language", "filesize", "filetype",
         "quality", "year", "website", "encoder", "group", "anime_info"] := rfl
      rw [h4] at h2
      revert h2
      decide

/-- C9 witness at a movie-classified title. -/
theorem C9_witness :
    isValidTitle "Avatar movie".data = true ∧
    detectContentType "Avatar movie".data (normalizeTitle "Avatar movie".data) = "movie".data ∧
    "season" ∉ (parse "Avatar movie".data).map Prod.fst :=
  ⟨by decide, by decide,
   ((C9_movie_priority_and_suppression "Avatar movie".data).2.2
      (by decide) (by decide)).1⟩

/-- A property holding on both branches of an `if` holds on the `if`. -/
theorem iteP {α : Sort _} (P : α → Prop) {c : Prop} [Decidable c] {a b : α}
    (ha : P a) (hb : P b) : P (ite c a b) := by
  by_cases h : c
  · rwa [if_pos h]
  · rwa [if_neg h]

/-- Branch-wise property introduction for an `if`, keeping the decided
condition as a hypothesis in each branch. -/
theorem itePH {α : Sort _} (P : α → Prop) {c : Prop} [Decidable c] {a b : α}
    (ha : c → P a) (hb : ¬c → P b) : P (ite c a b) := by
  by_cases h : c
  · rw [if_pos h]
    exact ha h
  · rw [if_neg h]
    exact hb h

/-- Every step of the episode scan only appends to the emission list. -/
theorem epStep_fst_app (ctx : EpCtx) (acc : EpAcc) (name : String)
    (ng : Nat) (m : RMatch) :
    ∃ l, (epStep ctx acc name ng m).1 = acc.1 ++ l := by
  unfold epStep
  dsimp only
  repeat'
    first
    | exact ⟨[], (List.append_nil _).symm⟩
    | exact ⟨[_], rfl⟩
    | apply iteP (fun p : EpAcc => ∃ l, p.1 = acc.1 ++ l)
  all_goals
    cases partWordVal (lowS (mgrpD ctx.nt m 1)) <;>
      first
      | exact ⟨[], (List.append_nil _).symm⟩
      | exact ⟨[_], rfl⟩

/-- Folding a step that only appends to the first component only appends
to the first component. -/
theorem foldl_fst_app {β : Type} (step : EpAcc → β → EpAcc)
    (hs : ∀ acc b, ∃ l, (step acc b).1 = acc.1 ++ l) :
    ∀ (bs : List β) (acc : EpAcc), ∃ l, (bs.foldl step acc).1 = acc.1 ++ l
  | [], acc => ⟨[], (List.append_nil _).symm⟩
  | b :: bs, acc => by
    obtain ⟨l1, h1⟩ := hs acc b
    obtain ⟨l2, h2⟩ := foldl_fst_app step hs bs (step acc b)
    exact ⟨l1 ++ l2, by rw [List.foldl_cons, h2, h1, List.append_assoc]⟩

/-- The per-pattern loop step only appends to the emission list. -/
theorem epPatStep_fst_app (ctx : EpCtx) :
    ∀ (acc : EpAcc) (e : String × RE × Nat),
      ∃ l, (epPatStep ctx acc e).1 = acc.1 ++ l := by
  intro acc e
  unfold epPatStep
  by_cases hc : completeEpisodeNames.contains e.1 = true
  · rw [if_pos hc]
    exact ⟨[], (List.append_nil _).symm⟩
  · rw [if_neg hc]
    exact foldl_fst_app _ (fun a m => epStep_fst_app ctx a e.1 e.2.2 m) _ acc

/-- Every hit of the special-episode patterns is the `"Special"`
emission. -/
theorem specialHits_const (nt : Str) :
    ∀ e ∈ specialEpisodeHits nt, e = (EpSrc.special, "Special".data) := by
  intro e he
  unfold specialEpisodeHits at he
  rcases List.mem_filterMap.mp he with ⟨re, _, hre⟩
  by_cases h : rtest re nt
  · simp [h] at hre
    exact hre.symm
  · simp [h] at hre

/-- A nonempty literal prefix of an append. -/
theorem isPrefixOf_append_self : ∀ (x r : Str), x.isPrefixOf (x ++ r) = true
  | [], _ => by simp [List.isPrefixOf]
  | c :: t, r => by
    simp [List.isPrefixOf, isPrefixOf_append_self t r]

/-- A comma-join starts with its first element. -/
theorem joinSep_startsWith (sep : Str) (x : Str) (xs : List Str) :
    startsWithS (joinSep sep (x :: xs)) x = true := by
  cases xs with
  | nil =>
    unfold joinSep startsWithS
    have := isPrefixOf_append_self x []
    rwa [List.append_nil] at this
  | cons y ys =>
    unfold joinSep startsWithS
    rw [List.append_assoc]
    exact isPrefixOf_append_self x _

/-- C4 (amended).  A matching special-episode indicator makes
`parse_episode` record `"Special"` first — the returned episode value
starts with `"Special"` — but scanning continues, so further candidates
may follow it. -/
theorem C4_special_prefix (t : Str)
    (h : specialEpisodeHits (normalizeTitle t) ≠ []) :
    ∃ r, parseEpisode t = some r ∧ startsWithS r "Special".data = true := by
  obtain ⟨e, tl, hst⟩ : ∃ e tl,
      specialEpisodeHits (normalizeTitle t) = e :: tl := by
    cases hs : specialEpisodeHits (normalizeTitle t) with
    | nil => exact absurd hs h
    | cons e tl => exact ⟨e, tl, rfl⟩
  have he : e = (EpSrc.special, "Special".data) :=
    specialHits_const _ e (hst ▸ List.mem_cons_self e tl)
  subst he
  have hann : ∃ rest, parseEpisodeAnn t =
      (EpSrc.special, "Special".data) :: rest := by
    simp only [parseEpisodeAnn]
    rw [hst]
    by_cases hc : (completeEpisodeHits (normalizeTitle t)).isEmpty
    · simp only [hc, Bool.not_true, Bool.false_eq_true, if_false]
      obtain ⟨l, hl⟩ := foldl_fst_app
        (epPatStep ⟨normalizeTitle t, episodeExcludeNumbers (normalizeTitle t),
          seasonNumsOf ((parseSeason t).getD [])⟩)
        (epPatStep_fst_app _)
        episodePatterns ((EpSrc.special, "Special".data) :: tl, [])
      rw [hl]
      simp only [List.cons_append, List.append_assoc]
      exact ⟨_, rfl⟩
    · simp only [hc, Bool.not_false, if_true]
      exact ⟨_, rfl⟩
  obtain ⟨rest, hann⟩ := hann
  refine ⟨joinSep ", ".data ("Special".data :: rest.map (fun e => e.2)), ?_, ?_⟩
  · simp only [parseEpisode]
    rw [hann]
    rfl
  · exact joinSep_startsWith _ _ _

/-- C4 witness: the indicator `OVA` triggers the `"Special"`-prefixed
result. -/
theorem C4_witness :
    ∃ r, parseEpisode "OVA 05".data = some r ∧
      startsWithS r "Special".data = true :=
  C4_special_prefix "OVA 05".data (by decide)

/-- C5.  A simple (non-aggregate) season match whose start position lies
inside a complex aggregate span is never among the matches `parse_season`
processes; in particular `"S1-S2-S3"` is handled solely by the aggregate
list pattern and yields only the range key `S01-S03`. -/
theorem C5_complex_suppression :
    (∀ (nt : Str) (pm : String × Nat × RMatch),
        seasonComplexNames.contains pm.1 = false →
        insideComplex (seasonComplexRanges nt) pm.2.2.mstart = true →
        pm ∉ seasonConsideredMatches nt) ∧
    (∀ pm ∈ seasonConsideredMatches (normalizeTitle "S1-S2-S3".data),
        pm.1 = "S+S+S list") ∧
    parseSeason "S1-S2-S3".data = some "S01-S03".data := by
  refine ⟨?_, by decide, by decide⟩
  intro nt pm hname hin hmem
  have h := (List.mem_filter.mp hmem).2
  rw [hname, hin] at h
  exact absurd h (by decide)

/-- C7.  The episode-count branch: a count equal to an already-recognised
season number is rejected outright; otherwise, a non-excluded all-digit
count `n` with `1 ≤ n ≤ 200` records the candidate `E1-E<n>`.  The
Trashopolis example yields `E1-E11`. -/
theorem C7_episode_count_guard :
    (∀ (ctx : EpCtx) (acc : EpAcc) (m : RMatch),
        ctx.seasonNums.contains (mgrpD ctx.nt m 1) = true →
        epStep ctx acc "## episodes" 1 m = acc) ∧
    (∀ (ctx : EpCtx) (acc : EpAcc) (m : RMatch),
        ctx.seasonNums.contains (mgrpD ctx.nt m 1) = false →
        ctx.excl.contains (mgrpD ctx.nt m 1) = false →
        isDigitsS (mgrpD ctx.nt m 1) = true →
        1 ≤ toNatS (mgrpD ctx.nt m 1) →
        toNatS (mgrpD ctx.nt m 1) ≤ 200 →
        epStep ctx acc "## episodes" 1 m =
          (acc.1, epPotInsert acc.2
            ("E1-E".data ++ natToS (toNatS (mgrpD ctx.nt m 1)))
            ⟨mtext ctx.nt m, 5, .count⟩)) ∧
    parseEpisode
        "Trashopolis (11 episodes) (2010-2011) SATRip [Hurtom]".data =
      some "E1-E11".data := by
  refine ⟨?_, ?_, by decide⟩
  · intro ctx acc m hs
    unfold epStep
    dsimp only
    refine itePH (fun p : EpAcc => p = acc) ?_ ?_
    · intro _
      refine itePH (fun p : EpAcc => p = acc) ?_ ?_
      · intro _
        rfl
      · intro h
        exact absurd hs h
    · intro h
      exact absurd (by decide) h
  · intro ctx acc m hs hexcl hdig h1 h200
    unfold epStep
    dsimp only
    refine itePH (fun p : EpAcc => p = _) ?_ ?_
    · intro _
      refine itePH (fun p : EpAcc => p = _) ?_ ?_
      · intro h
        rw [hs] at h
        exact absurd h (by decide)
      · intro _
        refine itePH (fun p : EpAcc => p = _) ?_ ?_
        · intro _
          rfl
        · intro h
          exact absurd (by rw [hexcl, hdig]; simp [h1, h200]) h
    · intro h
      exact absurd (by decide) h

/-- C7 witness: with normalized text `"11 episodes"` and match `(0,11)`
capturing `"11"`, the count is dropped when `11` is a known season number
and recorded as `E1-E11` otherwise. -/
theorem C7_witness :
    epStep ⟨"11 episodes".data, [], ["11".data]⟩ ([], []) "## episodes" 1
        ⟨0, 11, [(1, 0, 2)]⟩ = ([], []) ∧
    epStep ⟨"11 episodes".data, [], []⟩ ([], []) "## episodes" 1
        ⟨0, 11, [(1, 0, 2)]⟩ =
      (([] : List (EpSrc × Str)),
        epPotInsert [] ("E1-E".data ++ natToS (toNatS "11".data))
          ⟨mtext "11 episodes".data ⟨0, 11, [(1, 0, 2)]⟩, 5, .count⟩) :=
  ⟨C7_episode_count_guard.1 ⟨"11 episodes".data, [], ["11".data]⟩ ([], [])
      ⟨0, 11, [(1, 0, 2)]⟩ (by decide),
   C7_episode_count_guard.2.1 ⟨"11 episodes".data, [], []⟩ ([], [])
      ⟨0, 11, [(1, 0, 2)]⟩ (by decide) (by decide) (by decide) (by decide)
      (by decide)⟩

/-- C5 witness: in `"S1-S2-S3"` the singleton pattern `S#` matching at
offset 0 falls inside the aggregate span and is suppressed. -/
theorem C5_witness :
    seasonComplexNames.contains "S#" = false ∧
    insideComplex (seasonComplexRanges (normalizeTitle "S1-S2-S3".data)) 0 =
      true ∧
    ("S#", 1, (⟨0, 2, [(1, 1, 2)]⟩ : RMatch)) ∉
      seasonConsideredMatches (normalizeTitle "S1-S2-S3".data) :=
  ⟨by decide, by decide,
   C5_complex_suppression.1 _ ("S#", 1, ⟨0, 2, [(1, 1, 2)]⟩)
     (by decide) (by decide)⟩

/-- The base of a `max`-fold bounds the result from below. -/
theorem le_foldl_max {α : Type} [LinearOrder α] :
    ∀ (l : List α) (b : α), b ≤ l.foldl max b
  | [], _ => le_refl _
  | x :: t, b => le_trans (le_max_left b x) (le_foldl_max t (max b x))

/-- A `max`-fold returns its base or an element of the list. -/
theorem foldl_max_mem {α : Type} [LinearOrder α] :
    ∀ (l : List α) (b : α), l.foldl max b = b ∨ l.foldl max b ∈ l
  | [], _ => Or.inl rfl
  | x :: t, b => by
    rcases foldl_max_mem t (max b x) with h | h
    · rw [List.foldl_cons, h]
      rcases max_choice b x with hm | hm
      · exact Or.inl hm
      · exact Or.inr (by rw [hm]; exact List.mem_cons_self x t)
    · exact Or.inr (List.mem_cons_of_mem x h)

/-- A first-strict-improvement fold computes the first maximum: `find?` at
the maximal key returns exactly its result. -/
theorem fold1Max_find (f : Str → Nat) :
    ∀ (xs : List Str) (b : Str),
      (b :: xs).find? (fun v => f v == (xs.map f).foldl max (f b)) =
        some (fold1Max f b xs)
  | [], b => by simp [fold1Max, List.find?]
  | v :: t, b => by
    by_cases h : f b < f v
    · have hm : max (f b) (f v) = f v := max_eq_right (le_of_lt h)
      have hlt : f b < (t.map f).foldl max (f v) :=
        lt_of_lt_of_le h (le_foldl_max _ _)
      have hfold : fold1Max f b (v :: t) = fold1Max f v t := by
        simp [fold1Max, h]
      have ih := fold1Max_find f t v
      simp only [List.map_cons, List.foldl_cons, hm]
      rw [List.find?_cons_of_neg _ (by simp [Nat.ne_of_lt hlt]), ih, hfold]
    · have hle : f v ≤ f b := le_of_not_lt h
      have hm : max (f b) (f v) = f b := max_eq_left hle
      have hfold : fold1Max f b (v :: t) = fold1Max f b t := by
        simp [fold1Max, h]
      have ih := fold1Max_find f t b
      simp only [List.map_cons, List.foldl_cons, hm]
      by_cases hb : (f b == (t.map f).foldl max (f b)) = true
      · rw [List.find?_cons_of_pos _ (by exact hb)]
        rw [List.find?_cons_of_pos _ (by exact hb)] at ih
        rw [hfold]
        exact ih
      · have hblt : f b < (t.map f).foldl max (f b) :=
          lt_of_le_of_ne (le_foldl_max _ _) (by simpa using hb)
        have hv : ¬((f v == (t.map f).foldl max (f b)) = true) := by
          simp [Nat.ne_of_lt (lt_of_le_of_lt hle hblt)]
        rw [List.find?_cons_of_neg _ (by exact hb), List.find?_cons_of_neg _ (by exact hv)]
        rw [List.find?_cons_of_neg _ (by exact hb)] at ih
        rw [hfold]
        exact ih

/-- The running fold of Python `max(xs, key=f)` from a seeded best. -/
theorem pyMaxBy_go (f : Str → Nat) :
    ∀ (xs : List Str) (b : Str),
      xs.foldl
        (fun (best : Option Str) v =>
          match best with
          | none => some v
          | some b => if f v > f b then some v else best)
        (some b) = some (fold1Max f b xs)
  | [], _ => rfl
  | v :: t, b => by
    have h1 : (v :: t).foldl
        (fun (best : Option Str) v =>
          match best with
          | none => some v
          | some b => if f v > f b then some v else best)
        (some b) =
        t.foldl
          (fun (best : Option Str) v =>
            match best with
            | none => some v
            | some b => if f v > f b then some v else best)
          (some (if f v > f b then v else b)) := by
      rw [List.foldl_cons]
      congr 1
      exact (apply_ite some _ v b).symm
    rw [h1, pyMaxBy_go f t (if f v > f b then v else b)]
    rfl

/-- Python `max(xs, key=f)` on a nonempty list is a first-maximum fold. -/
theorem pyMaxBy_cons (f : Str → Nat) (x : Str) (xs : List Str) :
    pyMaxBy f (x :: xs) = some (fold1Max f x xs) := by
  unfold pyMaxBy
  rw [List.foldl_cons]
  exact pyMaxBy_go f xs x

/-- Python `max(xs, key=f)` picks the first element attaining the maximal
key. -/
theorem pyMaxBy_find (f : Str → Nat) (x : Str) (xs : List Str) :
    pyMaxBy f (x :: xs) =
      (x :: xs).find? (fun v => f v == maxCountSpec f (x :: xs)) := by
  rw [pyMaxBy_cons]
  have hkey : maxCountSpec f (x :: xs) = (xs.map f).foldl max (f x) := by
    simp [maxCountSpec]
  rw [hkey, fold1Max_find f xs x]

/-- `max(..., key=counts)` over a nonempty candidate list is the
specification's "most frequent, ties broken by first occurrence". -/
theorem pyMaxBy_mostFrequent (all xs : List Str) (h : xs ≠ []) :
    pyMaxBy (fun v => countOcc all v) xs = mostFrequentSpec all xs := by
  obtain ⟨x, t, rfl⟩ := List.exists_cons_of_ne_nil h
  unfold mostFrequentSpec
  exact pyMaxBy_find (countOcc all) x t

/-- Invariant of the widest-span scan: from seed `(b, sp)` the fold yields
the first candidate whose span is the running maximum, unless no span
improves on the seed. -/
theorem bestRangeScan_go :
    ∀ (rs : List Str) (b : Option Str) (sp : Int),
      rs.foldl
        (fun (st : Option Str × Int) v =>
          match rangeSpan v with
          | some sp => if sp > st.2 then (some v, sp) else st
          | none => st)
        (b, sp) =
      if sp < (rs.filterMap rangeSpan).foldl max sp then
        (rs.find? (fun v =>
           rangeSpan v == some ((rs.filterMap rangeSpan).foldl max sp)),
         (rs.filterMap rangeSpan).foldl max sp)
      else (b, sp)
  | [], b, sp => by simp
  | v :: t, b, sp => by
    rw [List.foldl_cons]
    dsimp only
    cases hrv : rangeSpan v with
    | none =>
      have hfm : (v :: t).filterMap rangeSpan = t.filterMap rangeSpan := by
        simp [List.filterMap_cons, hrv]
      rw [hfm]
      dsimp only
      rw [List.find?_cons_of_neg _ (by rw [hrv]; simp)]
      exact bestRangeScan_go t b sp
    | some s =>
      have hfm : (v :: t).filterMap rangeSpan = s :: t.filterMap rangeSpan := by
        simp [List.filterMap_cons, hrv]
      rw [hfm]
      dsimp only
      rw [List.foldl_cons]
      by_cases h : s > sp
      · rw [if_pos h]
        have hms : max sp s = s := max_eq_right (le_of_lt h)
        rw [hms, bestRangeScan_go t (some v) s]
        have hsp : sp < (t.filterMap rangeSpan).foldl max s :=
          lt_of_lt_of_le h (le_foldl_max _ _)
        rw [if_pos hsp]
        by_cases h2 : s < (t.filterMap rangeSpan).foldl max s
        · rw [if_pos h2]
          rw [List.find?_cons_of_neg _ (by rw [hrv]; simp [ne_of_lt h2])]
        · rw [if_neg h2]
          have hse : s = (t.filterMap rangeSpan).foldl max s :=
            le_antisymm (le_foldl_max _ _) (le_of_not_lt h2)
          rw [List.find?_cons_of_pos _ (by rw [hrv, ← hse]; simp)]
          rw [← hse]
      · rw [if_neg h]
        have hms : max sp s = sp := max_eq_left (le_of_not_lt h)
        rw [hms, bestRangeScan_go t b sp]
        by_cases h2 : sp < (t.filterMap rangeSpan).foldl max sp
        · rw [if_pos h2, if_pos h2]
          have hne : s ≠ (t.filterMap rangeSpan).foldl max sp :=
            ne_of_lt (lt_of_le_of_lt (le_of_not_lt h) h2)
          rw [List.find?_cons_of_neg _ (by rw [hrv]; simp [hne])]
        · rw [if_neg h2, if_neg h2]

/-- The widest-span scan in closed form: the first candidate achieving the
maximal span when any range parses with span above the `-1` floor. -/
theorem bestRangeScan_eq (rs : List Str) :
    bestRangeScan rs =
      if (-1 : Int) < maxSpanSpec rs then
        (rs.find? (fun v => rangeSpan v == some (maxSpanSpec rs)),
         maxSpanSpec rs)
      else (none, -1) := by
  unfold bestRangeScan maxSpanSpec
  exact bestRangeScan_go rs none (-1)

/-- A nonempty list has `isEmpty = false`. -/
theorem isEmpty_false_of_ne_nil {α : Type} {l : List α} (h : l ≠ []) :
    l.isEmpty = false := by
  cases l with
  | nil => exact absurd rfl h
  | cons x t => rfl

/-- First-occurrence deduplication preserves nonemptiness. -/
theorem dedupFirst_ne_nil {xs : List Str} (h : xs ≠ []) :
    dedupFirst xs ≠ [] := by
  cases xs with
  | nil => exact absurd rfl h
  | cons x t => simp [dedupFirst]

/-- When the maximal span beats the `-1` floor it is attained, so the
`find?` of the widest-range specification succeeds. -/
theorem maxSpan_attained {rs : List Str}
    (h : (-1 : Int) < maxSpanSpec rs) :
    ∃ r, rs.find? (fun v => rangeSpan v == some (maxSpanSpec rs)) = some r := by
  have hs : (rs.find? (fun v => rangeSpan v == some (maxSpanSpec rs))).isSome := by
    rw [List.find?_isSome]
    rcases foldl_max_mem (rs.filterMap rangeSpan) (-1) with hc | hc
    · have hm : maxSpanSpec rs = -1 := hc
      rw [hm] at h
      exact absurd h (lt_irrefl _)
    · rcases List.mem_filterMap.mp hc with ⟨v, hvmem, hvs⟩
      refine ⟨v, hvmem, ?_⟩
      show (rangeSpan v == some (maxSpanSpec rs)) = true
      rw [hvs]
      simp [maxSpanSpec]
  exact Option.isSome_iff_exists.mp hs

/-- C2 (amended).  With at least two comma-separated candidates: when any
range candidate parses, the result is the widest-span range (first seen on
ties) if the maximal span is positive, and otherwise the most frequent
*range* candidate — not the most frequent literal overall; with no range
candidates, the result is the most frequent singleton.  The two cited
examples behave as claimed. -/
theorem C2_resolution_rules :
    (∀ s : Str, 2 ≤ (splitStrip s).length →
      (((splitStrip s).filter (fun v => v.contains '-') ≠ [] →
        0 < maxSpanSpec
            (dedupFirst ((splitStrip s).filter (fun v => v.contains '-'))) →
        processSeasonEpisodeField s =
          widestRangeSpec
            (dedupFirst ((splitStrip s).filter (fun v => v.contains '-')))) ∧
       ((splitStrip s).filter (fun v => v.contains '-') ≠ [] →
        maxSpanSpec
            (dedupFirst ((splitStrip s).filter (fun v => v.contains '-'))) ≤ 0 →
        processSeasonEpisodeField s =
          mostFrequentSpec (splitStrip s)
            (dedupFirst ((splitStrip s).filter (fun v => v.contains '-')))) ∧
       ((splitStrip s).filter (fun v => v.contains '-') = [] →
        processSeasonEpisodeField s =
          mostFrequentSpec (splitStrip s)
            (dedupFirst ((splitStrip s).filter (fun v => !v.contains '-')))))) ∧
    processSeasonEpisodeField "E01, E01-E05, E03".data =
      some "E01-E05".data ∧
    processSeasonEpisodeField "S01, S02, S01".data = some "S01".data := by
  refine ⟨?_, by decide, by decide⟩
  intro s h2
  have hne : splitStrip s ≠ [] := by
    intro h
    rw [h] at h2
    exact absurd h2 (by decide)
  obtain ⟨a, tl, hv1⟩ := List.exists_cons_of_ne_nil hne
  have hne2 : tl ≠ [] := by
    intro h
    rw [h] at hv1
    rw [hv1] at h2
    simp only [List.length_cons, List.length_nil] at h2
    omega
  obtain ⟨b0, t, hv2⟩ := List.exists_cons_of_ne_nil hne2
  subst hv2
  have hsne : s.isEmpty = false := by
    cases s with
    | nil =>
      rw [show splitStrip [] = [[]] from rfl] at hv1
      have hlen := congrArg List.length hv1
      simp only [List.length_cons, List.length_nil] at hlen
      omega
    | cons c cs => rfl
  have hmain : processSeasonEpisodeField s =
      (if !((a :: b0 :: t).filter (fun v => v.contains '-')).isEmpty then
         match (bestRangeScan
             (dedupFirst ((a :: b0 :: t).filter (fun v => v.contains '-')))).1 with
         | some r =>
           if (bestRangeScan
               (dedupFirst ((a :: b0 :: t).filter (fun v => v.contains '-')))).2 > 0
           then some r
           else pyMaxBy (fun v => countOcc (a :: b0 :: t) v)
             (dedupFirst ((a :: b0 :: t).filter (fun v => v.contains '-')))
         | none => pyMaxBy (fun v => countOcc (a :: b0 :: t) v)
             (dedupFirst ((a :: b0 :: t).filter (fun v => v.contains '-')))
       else if !((a :: b0 :: t).filter (fun v => !v.contains '-')).isEmpty then
         pyMaxBy (fun v => countOcc (a :: b0 :: t) v)
           (dedupFirst ((a :: b0 :: t).filter (fun v => !v.contains '-')))
       else none) := by
    simp only [processSeasonEpisodeField]
    rw [hsne, hv1]
    exact rfl
  refine ⟨?_, ?_, ?_⟩
  · intro hr hM
    rw [hv1] at hr hM ⊢
    rw [hmain]
    have hre := isEmpty_false_of_ne_nil hr
    rw [if_pos (by rw [hre]; rfl)]
    have hm1 : (-1 : Int) < maxSpanSpec
        (dedupFirst ((a :: b0 :: t).filter (fun v => v.contains '-'))) :=
      lt_trans (by norm_num) hM
    obtain ⟨r, hrfind⟩ := maxSpan_attained hm1
    have hbest := bestRangeScan_eq
      (dedupFirst ((a :: b0 :: t).filter (fun v => v.contains '-')))
    rw [if_pos hm1] at hbest
    rw [hbest]
    dsimp only
    rw [hrfind]
    dsimp only
    rw [if_pos hM]
    unfold widestRangeSpec
    exact hrfind.symm
  · intro hr hM0
    rw [hv1] at hr hM0 ⊢
    rw [hmain]
    have hre := isEmpty_false_of_ne_nil hr
    rw [if_pos (by rw [hre]; rfl)]
    have hDne := dedupFirst_ne_nil hr
    have hbest := bestRangeScan_eq
      (dedupFirst ((a :: b0 :: t).filter (fun v => v.contains '-')))
    by_cases hm1 : (-1 : Int) < maxSpanSpec
        (dedupFirst ((a :: b0 :: t).filter (fun v => v.contains '-')))
    · obtain ⟨r, hrfind⟩ := maxSpan_attained hm1
      rw [if_pos hm1] at hbest
      rw [hbest]
      dsimp only
      rw [hrfind]
      dsimp only
      rw [if_neg (not_lt.mpr hM0)]
      exact pyMaxBy_mostFrequent _ _ hDne
    · rw [if_neg hm1] at hbest
      rw [hbest]
      dsimp only
      exact pyMaxBy_mostFrequent _ _ hDne
  · intro hr0
    rw [hv1] at hr0 ⊢
    rw [hmain]
    have hcf :
        ¬((!((a :: b0 :: t).filter (fun v => v.contains '-')).isEmpty) = true) := by
      rw [hr0]
      decide
    rw [if_neg hcf]
    have hpa : (!a.contains '-') = true := by
      cases hca : a.contains '-' with
      | true =>
        have hmem : a ∈ (a :: b0 :: t).filter (fun v => v.contains '-') :=
          List.mem_filter.mpr ⟨List.mem_cons_self _ _, hca⟩
        rw [hr0] at hmem
        exact absurd hmem (List.not_mem_nil a)
      | false => rfl
    have hsa : a ∈ (a :: b0 :: t).filter (fun v => !v.contains '-') :=
      List.mem_filter.mpr ⟨List.mem_cons_self _ _, hpa⟩
    have hsne2 : (a :: b0 :: t).filter (fun v => !v.contains '-') ≠ [] :=
      List.ne_nil_of_mem hsa
    rw [if_pos (by rw [isEmpty_false_of_ne_nil hsne2]; rfl)]
    exact pyMaxBy_mostFrequent _ _ (dedupFirst_ne_nil hsne2)

/-- C2 witness: on `E01, E01-E05, E03` the range rule fires with positive
span and the result is the widest-range pick. -/
theorem C2_witness :
    2 ≤ (splitStrip "E01, E01-E05, E03".data).length ∧
    processSeasonEpisodeField "E01, E01-E05, E03".data =
      widestRangeSpec
        (dedupFirst ((splitStrip "E01, E01-E05, E03".data).filter
          (fun v => v.contains '-'))) :=
  ⟨by decide,
   ((C2_resolution_rules.1 "E01, E01-E05, E03".data (by decide)).1
     (by decide) (by decide))⟩

/-- A generic fold-preservation principle. -/
theorem foldl_pres {γ β : Type} (P : γ → Prop) (step : γ → β → γ)
    (hs : ∀ a b, P a → P (step a b)) :
    ∀ (bs : List β) (a : γ), P a → P (bs.foldl step a)
  | [], _, h => h
  | b :: bs, a, h => foldl_pres P step hs bs (step a b) (hs a b h)

/-- Emissions whose source is none of the capped branches satisfy the
shape invariant vacuously. -/
theorem emOK_other (s : EpSrc) (x : Str) (hc : s ≠ .count) (hr : s ≠ .range)
    (h1 : s ≠ .one) (h2 : s ≠ .two) (h3 : s ≠ .three) (ha : s ≠ .absEp) :
    emOK (s, x) := by
  unfold emOK
  refine ⟨fun h => absurd h hc, fun h => absurd h hr, fun h => absurd h h1,
    fun h => ?_, fun h => absurd h ha⟩
  exact h.elim (fun h2x => absurd h2x h2) (fun h3x => absurd h3x h3)

/-- The episode-count emission shape. -/
theorem emOK_count {x : Str} {n : Nat} (h1 : 1 ≤ n) (h2 : n ≤ 200)
    (hx : x = "E1-E".data ++ natToS n) : emOK (.count, x) := by
  unfold emOK
  refine ⟨fun _ => ⟨n, h1, h2, hx⟩, by simp, by simp, by simp, by simp⟩

/-- The explicit-range emission shape. -/
theorem emOK_range {x a b : Str} (da : isDigitsS a = true)
    (db : isDigitsS b = true) (a1 : 1 ≤ toNatS a) (a2 : toNatS a ≤ 200)
    (b1 : 1 ≤ toNatS b) (b2 : toNatS b ≤ 200)
    (hx : x = "E".data ++ zfill 2 a ++ "-E".data ++ zfill 2 b) :
    emOK (.range, x) := by
  unfold emOK
  refine ⟨by simp, fun _ => ⟨a, b, da, db, a1, a2, b1, b2, hx⟩, by simp,
    by simp, by simp⟩

/-- The single-capture emission shape. -/
theorem emOK_one {x a : Str} (da : isDigitsS a = true) (a2 : toNatS a ≤ 200)
    (hx : x = "E".data ++ zfill 2 a) : emOK (.one, x) := by
  unfold emOK
  refine ⟨by simp, by simp, fun _ => ⟨a, da, a2, hx⟩, by simp, by simp⟩

/-- The two-group fallback range emission shape. -/
theorem emOK_two {x a b : Str} (da : isDigitsS a = true)
    (db : isDigitsS b = true) (a2 : toNatS a ≤ 200) (b2 : toNatS b ≤ 200)
    (hx : x = "E".data ++ zfill 2 a ++ "-E".data ++ zfill 2 b) :
    emOK (.two, x) := by
  unfold emOK
  refine ⟨by simp, by simp, by simp, fun _ => ⟨a, b, da, db, a2, b2, hx⟩,
    by simp⟩

/-- The three-group fallback range emission shape. -/
theorem emOK_three {x a b : Str} (da : isDigitsS a = true)
    (db : isDigitsS b = true) (a2 : toNatS a ≤ 200) (b2 : toNatS b ≤ 200)
    (hx : x = "E".data ++ zfill 2 a ++ "-E".data ++ zfill 2 b) :
    emOK (.three, x) := by
  unfold emOK
  refine ⟨by simp, by simp, by simp, fun _ => ⟨a, b, da, db, a2, b2, hx⟩,
    by simp⟩

/-- The absolute-episode emission shape. -/
theorem emOK_absEp {x a : Str} (da : isDigitsS a = true)
    (a2 : toNatS a ≤ 2000) (hx : x = "Abs".data ++ zfill 3 a) :
    emOK (.absEp, x) := by
  unfold emOK
  refine ⟨by simp, by simp, by simp, by simp, fun _ => ⟨a, da, a2, hx⟩⟩

/-- Appending one invariant-respecting emission preserves `accOK`. -/
theorem accOK_emit {acc : EpAcc} (h : accOK acc) {x : EpSrc × Str}
    (hx : emOK x) : accOK (acc.1 ++ [x], acc.2) := by
  refine ⟨?_, h.2⟩
  intro e he
  rcases List.mem_append.mp he with h1 | h1
  · exact h.1 e h1
  · rw [List.mem_singleton.mp h1]
    exact hx

/-- Inserting an invariant-respecting entry preserves `potOK`. -/
theorem epPotInsert_potOK {pm : EpPot} (h : potOK pm) {k : Str} {v : EpPotE}
    (hv : emOK (v.src, k)) : potOK (epPotInsert pm k v) := by
  intro kv hkv
  unfold epPotInsert at hkv
  by_cases hf : (pm.find? (fun kv => kv.1 == k)).isSome = true
  · rw [if_pos hf] at hkv
    rcases List.mem_map.mp hkv with ⟨kv0, hkv0, hmap⟩
    by_cases hcc : (kv0.1 == k && decide (v.prio > kv0.2.prio)) = true
    · rw [if_pos hcc] at hmap
      rw [← hmap]
      exact hv
    · rw [if_neg hcc] at hmap
      rw [← hmap]
      exact h kv0 hkv0
  · rw [if_neg hf] at hkv
    rcases List.mem_append.mp hkv with h1 | h1
    · exact h kv h1
    · rw [List.mem_singleton.mp h1]
      exact hv

/-- Every step of the episode scan preserves the emission-shape
invariant on both components of the accumulator. -/
theorem epStep_accOK (ctx : EpCtx) (acc : EpAcc) (name : String) (ng : Nat)
    (m : RMatch) (h : accOK acc) : accOK (epStep ctx acc name ng m) := by
  unfold epStep
  dsimp only
  refine itePH accOK (fun _ => ?_) (fun _ => ?_)
  · refine itePH accOK (fun _ => ?_) (fun _ => ?_)
    · exact h
    · refine itePH accOK (fun hc => ?_) (fun _ => ?_)
      · simp only [Bool.and_eq_true, decide_eq_true_eq] at hc
        exact ⟨h.1, epPotInsert_potOK h.2 (emOK_count hc.1.2 hc.2 rfl)⟩
      · exact h
  · refine itePH accOK (fun _ => ?_) (fun _ => ?_)
    · refine itePH accOK (fun _ => ?_) (fun _ => ?_)
      · refine itePH accOK (fun _ => ?_) (fun _ => ?_)
        · exact h
        · refine itePH accOK (fun _ => ?_) (fun _ => ?_)
          · exact h
          · refine itePH accOK (fun hc => ?_) (fun _ => ?_)
            · simp only [Bool.and_eq_true, decide_eq_true_eq] at hc
              exact ⟨h.1, epPotInsert_potOK h.2
                (emOK_range hc.1.1.1.1.1 hc.1.1.1.1.2 hc.1.2 hc.1.1.1.2
                  hc.2 hc.1.1.2 rfl)⟩
            · exact h
      · exact h
    · refine itePH accOK (fun _ => ?_) (fun _ => ?_)
      · exact h
      · refine itePH accOK (fun _ => ?_) (fun _ => ?_)
        · refine itePH accOK (fun _ => ?_) (fun _ => ?_)
          · exact accOK_emit h (emOK_other .splitE _ (by decide) (by decide)
              (by decide) (by decide) (by decide) (by decide))
          · exact h
        · refine itePH accOK (fun _ => ?_) (fun _ => ?_)
          · cases partWordVal (lowS (mgrpD ctx.nt m 1)) with
            | none => exact h
            | some k => exact accOK_emit h (emOK_other .partOne _ (by decide)
                (by decide) (by decide) (by decide) (by decide) (by decide))
          · refine itePH accOK (fun _ => ?_) (fun _ => ?_)
            · refine itePH accOK (fun _ => ?_) (fun _ => ?_)
              · exact accOK_emit h (emOK_other .xofy _ (by decide) (by decide)
                  (by decide) (by decide) (by decide) (by decide))
              · exact h
            · refine itePH accOK (fun _ => ?_) (fun _ => ?_)
              · refine itePH accOK (fun hc => ?_) (fun _ => ?_)
                · simp only [Bool.and_eq_true, decide_eq_true_eq] at hc
                  exact accOK_emit h (emOK_one hc.1.1.2 hc.1.2 rfl)
                · exact h
              · refine itePH accOK (fun _ => ?_) (fun _ => ?_)
                · refine itePH accOK (fun _ => ?_) (fun _ => ?_)
                  · refine itePH accOK (fun hc => ?_) (fun _ => ?_)
                    · simp only [Bool.and_eq_true, decide_eq_true_eq] at hc
                      exact accOK_emit h
                        (emOK_two hc.1.1.1.2 hc.1.1.2 hc.1.2 hc.2 rfl)
                    · exact h
                  · exact h
                · refine itePH accOK (fun _ => ?_) (fun _ => ?_)
                  · refine itePH accOK (fun _ => ?_) (fun _ => ?_)
                    · refine itePH accOK (fun hc => ?_) (fun _ => ?_)
                      · simp only [Bool.and_eq_true, decide_eq_true_eq] at hc
                        exact accOK_emit h
                          (emOK_three hc.1.1.1.2 hc.1.1.2 hc.1.2 hc.2 rfl)
                      · exact h
                    · exact h
                  · refine itePH accOK (fun _ => ?_) (fun _ => ?_)
                    · refine itePH accOK (fun hc => ?_) (fun _ => ?_)
                      · simp only [Bool.and_eq_true, decide_eq_true_eq] at hc
                        exact accOK_emit h
                          (emOK_absEp hc.1.1.1.2 hc.1.1.2 rfl)
                      · exact h
                    · exact h

/-- The per-pattern loop step preserves the emission-shape invariant. -/
theorem epPatStep_accOK (ctx : EpCtx) (acc : EpAcc) (e : String × RE × Nat)
    (h : accOK acc) : accOK (epPatStep ctx acc e) := by
  unfold epPatStep
  refine iteP accOK h ?_
  exact foldl_pres accOK _ (fun a mm ha => epStep_accOK ctx a e.1 e.2.2 mm ha)
    (finditer e.2.1 ctx.nt) acc h

/-- Stable descending insertion adds no new elements. -/
theorem mem_insDesc {α : Type} (k : α → Nat × Nat) (e0 : α) :
    ∀ (l : List α) (x : α), x ∈ insDesc k e0 l → x = e0 ∨ x ∈ l
  | [], x, h => Or.inl (List.mem_singleton.mp h)
  | z :: t, x, h => by
    unfold insDesc at h
    dsimp only at h
    by_cases hc : (decide ((k z).1 > (k e0).1) ||
        ((k z).1 == (k e0).1 && decide ((k z).2 ≥ (k e0).2))) = true
    · rw [if_pos hc] at h
      rcases List.mem_cons.mp h with h1 | h1
      · exact Or.inr (by rw [h1]; exact List.mem_cons_self z t)
      · rcases mem_insDesc k e0 t x h1 with h2 | h2
        · exact Or.inl h2
        · exact Or.inr (List.mem_cons_of_mem z h2)
    · rw [if_neg hc] at h
      rcases List.mem_cons.mp h with h1 | h1
      · exact Or.inl h1
      · exact Or.inr h1

/-- The running stable descending sort adds no new elements. -/
theorem mem_sortDesc_go {α : Type} (k : α → Nat × Nat) :
    ∀ (l init : List α) (x : α),
      x ∈ l.foldl (fun acc x => insDesc k x acc) init → x ∈ init ∨ x ∈ l
  | [], _, _, h => Or.inl h
  | z :: t, init, x, h => by
    rcases mem_sortDesc_go k t (insDesc k z init) x h with h1 | h1
    · rcases mem_insDesc k z init x h1 with h2 | h2
      · exact Or.inr (by rw [h2]; exact List.mem_cons_self z t)
      · exact Or.inl h2
    · exact Or.inr (List.mem_cons_of_mem z h1)

/-- Sorting permutes; membership is preserved. -/
theorem mem_sortDesc {α : Type} (k : α → Nat × Nat) (l : List α) (x : α)
    (h : x ∈ sortDesc k l) : x ∈ l := by
  rcases mem_sortDesc_go k l [] x h with h1 | h1
  · exact absurd h1 (List.not_mem_nil x)
  · exact h1

/-- Complete-phrase hits all carry the `.complete` provenance. -/
theorem completeHits_emOK (nt : Str) :
    ∀ e ∈ completeEpisodeHits nt, emOK e := by
  intro e he
  unfold completeEpisodeHits at he
  rcases List.mem_filterMap.mp he with ⟨pe, _, hpe⟩
  by_cases hcond : (completeEpisodeNames.contains pe.1 && rtest pe.2.1 nt) = true
  · rw [if_pos hcond] at hpe
    rw [← Option.some.injEq _ _ |>.mp hpe]
    exact emOK_other .complete _ (by decide) (by decide) (by decide)
      (by decide) (by decide) (by decide)
  · rw [if_neg hcond] at hpe
    exact absurd hpe (by simp)

/-- Date-pattern emissions all carry the `.date` provenance. -/
theorem dates_emOK (nt : Str) :
    ∀ e ∈ epDatePatterns.foldl
      (fun ds re =>
        ds ++ (finditer re nt).map
          (fun m => (EpSrc.date,
            "Date:".data ++ mgrpD nt m 1 ++ "-".data ++ mgrpD nt m 2 ++
            "-".data ++ mgrpD nt m 3)))
      [], emOK e := by
  refine foldl_pres (fun (ds : List (EpSrc × Str)) => ∀ e ∈ ds, emOK e) _ ?_
    epDatePatterns [] (fun e he => absurd he (List.not_mem_nil e))
  intro ds re hds e he
  rcases List.mem_append.mp he with h1 | h1
  · exact hds e h1
  · rcases List.mem_map.mp h1 with ⟨mm, _, hmape⟩
    rw [← hmape]
    exact emOK_other .date _ (by decide) (by decide) (by decide) (by decide)
      (by decide) (by decide)

/-- C10 (amended).  Every component `parse_episode` emits respects the
numeric caps of its producing branch: count candidates are `E1-E<n>` with
`1 ≤ n ≤ 200`, range candidates keep both numbers within `1..200`,
single/two/three-group candidates keep their numbers `≤ 200`, and absolute
candidates keep theirs `≤ 2000` — while the X-of-Y, split, part, phrase
and date branches are not numerically capped. -/
theorem C10_episode_caps :
    ∀ (t : Str), ∀ e ∈ parseEpisodeAnn t, emOK e := by
  intro t e he
  by_cases hc : (completeEpisodeHits (normalizeTitle t)).isEmpty = true
  · have hparse : parseEpisodeAnn t =
        ((episodePatterns.foldl
            (epPatStep ⟨normalizeTitle t,
              episodeExcludeNumbers (normalizeTitle t),
              seasonNumsOf ((parseSeason t).getD [])⟩)
            (specialEpisodeHits (normalizeTitle t), [])).1 ++
          (sortDesc (fun kv => (kv.2.prio, 0))
            (episodePatterns.foldl
              (epPatStep ⟨normalizeTitle t,
                episodeExcludeNumbers (normalizeTitle t),
                seasonNumsOf ((parseSeason t).getD [])⟩)
              (specialEpisodeHits (normalizeTitle t), [])).2).map
            (fun kv => (kv.2.src, kv.1))) ++
        epDatePatterns.foldl
          (fun ds re =>
            ds ++ (finditer re (normalizeTitle t)).map
              (fun m => (EpSrc.date,
                "Date:".data ++ mgrpD (normalizeTitle t) m 1 ++ "-".data ++
                mgrpD (normalizeTitle t) m 2 ++ "-".data ++
                mgrpD (normalizeTitle t) m 3)))
          [] := by
      simp only [parseEpisodeAnn]
      rw [hc]
      exact rfl
    rw [hparse] at he
    have hacc : accOK (episodePatterns.foldl
        (epPatStep ⟨normalizeTitle t,
          episodeExcludeNumbers (normalizeTitle t),
          seasonNumsOf ((parseSeason t).getD [])⟩)
        (specialEpisodeHits (normalizeTitle t), [])) := by
      refine foldl_pres accOK _ (fun a b ha => epPatStep_accOK _ a b ha)
        episodePatterns _ ⟨?_, ?_⟩
      · intro e2 he2
        rw [specialHits_const _ e2 he2]
        exact emOK_other .special _ (by decide) (by decide) (by decide)
          (by decide) (by decide) (by decide)
      · intro kv hkv
        exact absurd hkv (List.not_mem_nil kv)
    rcases List.mem_append.mp he with h1 | h1
    · rcases List.mem_append.mp h1 with h2 | h2
      · exact hacc.1 e h2
      · rcases List.mem_map.mp h2 with ⟨kv, hkv, hmape⟩
        rw [← hmape]
        exact hacc.2 kv (mem_sortDesc _ _ kv hkv)
    · exact dates_emOK (normalizeTitle t) e h1
  · have hc2 : (completeEpisodeHits (normalizeTitle t)).isEmpty = false := by
      cases hcc : (completeEpisodeHits (normalizeTitle t)).isEmpty
      · rfl
      · exact absurd hcc hc
    have hparse : parseEpisodeAnn t =
        specialEpisodeHits (normalizeTitle t) ++
          completeEpisodeHits (normalizeTitle t) := by
      simp only [parseEpisodeAnn]
      rw [hc2]
      exact rfl
    rw [hparse] at he
    rcases List.mem_append.mp he with h1 | h1
    · rw [specialHits_const _ e h1]
      exact emOK_other .special _ (by decide) (by decide) (by decide)
        (by decide) (by decide) (by decide)
    · exact completeHits_emOK _ e h1

/-- C10 witness: the count candidate of `"11 episodes"` is `E1-E11`, and
its shape invariant instantiates with `n = 11 ≤ 200`. -/
theorem C10_witness :
    (EpSrc.count, "E1-E11".data) ∈ parseEpisodeAnn "11 episodes".data ∧
    emOK (EpSrc.count, "E1-E11".data) :=
  ⟨by decide, C10_episode_caps "11 episodes".data _ (by decide)⟩
